import Mathlib

/-!
Protocol engine of the voice-assistant client (xiaozhi-esp32)

A shallow embedding of `main/protocols/protocol.cc`,
`main/protocols/websocket_protocol.cc` and `main/boards/common/backlight.cc`,
followed by the properties of the binary frame codec, the handshake
negotiator, the connection lifecycle and the backlight transition.

Conventions of the embedding

* a byte is a `Fin 256`, a buffer a `List Byte`; a read outside the buffer is
  an explicit failure (`none`), never a default value;
* `htons`/`htonl` followed by a store, and a load followed by `ntohs`/`ntohl`,
  are modelled on the bytes in memory: the field holds the big-endian digits of
  the value reduced modulo `2^16` / `2^32`;
* a C pointer that may be null is an `Option`;
* a `std::string` is a `String`; the strings of the engine hold no NUL
  character, so `c_str()` is the identity;
* every call a method makes on a collaborator (transport, observers, timer,
  scheduler) is appended to the `trace` of the engine, and what the
  collaborator answers is an explicit argument of the method.
-/

namespace Xiaozhi

/-! ## Bytes and fields in network byte order -/

abbrev Byte := Fin 256

/-- The byte holding `n` reduced modulo 256. -/
def byteOf (n : Nat) : Byte := ⟨n % 256, Nat.mod_lt n (by decide)⟩

/-- Memory image of a `uint16_t` field after `field = htons(x)`. -/
def htons (x : Nat) : List Byte :=
  let v := x % 2 ^ 16
  [byteOf (v / 256), byteOf v]

/-- Memory image of a `uint32_t` field after `field = htonl(x)`. -/
def htonl (x : Nat) : List Byte :=
  let v := x % 2 ^ 32
  [byteOf (v / 2 ^ 24), byteOf (v / 2 ^ 16), byteOf (v / 2 ^ 8), byteOf v]

/-- Value of a field whose memory image is `bs`, after `ntohs` / `ntohl`. -/
def ntoh (bs : List Byte) : Nat := bs.foldl (fun acc b => acc * 256 + b.val) 0

/-- The `n` bytes at offset `off` of a buffer; `none` when the range leaves it. -/
def load (data : List Byte) (off n : Nat) : Option (List Byte) :=
  if off + n ≤ data.length then some ((data.drop off).take n) else none

/-- The buffer after storing `bs` at offset `off`; `none` when the range leaves it. -/
def store (buf : List Byte) (off : Nat) (bs : List Byte) : Option (List Byte) :=
  if off + bs.length ≤ buf.length then
    some (buf.take off ++ bs ++ buf.drop (off + bs.length))
  else none

/-- A zeroed field of `n` bytes (`field = 0`). -/
def zeros (n : Nat) : List Byte := List.replicate n 0

/-! ## Header declarations -/

/-- Modelled from the spec: `protocol.h`, which declares the packed headers
`BinaryProtocol2` and `BinaryProtocol3`, is not among the sources. The fields
and their order are those of the wire-format table of the spec and of the
accesses in `websocket_protocol.cc`; a field converted with `htons`/`ntohs` is
2 bytes wide, one converted with `htonl`/`ntohl` 4 bytes. The widths of the
fields the code never converts are the parameters below. -/
structure HeaderLayout where
  /-- Width in bytes of `BinaryProtocol2::reserved`. -/
  v2_reserved : Nat
  /-- Width in bytes of `BinaryProtocol3::type`. -/
  v3_type : Nat
  /-- Width in bytes of `BinaryProtocol3::reserved`. -/
  v3_reserved : Nat
  deriving DecidableEq, Repr

/-- A layout whose unconverted fields are all 2 bytes wide: a 14-byte
version-2 header and a 6-byte version-3 header. -/
def layout_14_6 : HeaderLayout := ⟨2, 2, 2⟩

namespace HeaderLayout

/-- Value of `sizeof(BinaryProtocol2)`: the payload starts right after the fields. -/
def sizeof2 (L : HeaderLayout) : Nat := 2 + 2 + L.v2_reserved + 4 + 4

/-- Value of `sizeof(BinaryProtocol3)`. -/
def sizeof3 (L : HeaderLayout) : Nat := L.v3_type + L.v3_reserved + 2

def off2_version (_ : HeaderLayout) : Nat := 0
def off2_type (_ : HeaderLayout) : Nat := 2
def off2_reserved (_ : HeaderLayout) : Nat := 4
def off2_timestamp (L : HeaderLayout) : Nat := 4 + L.v2_reserved
def off2_payload_size (L : HeaderLayout) : Nat := 4 + L.v2_reserved + 4

def off3_type (_ : HeaderLayout) : Nat := 0
def off3_reserved (L : HeaderLayout) : Nat := L.v3_type
def off3_payload_size (L : HeaderLayout) : Nat := L.v3_type + L.v3_reserved

end HeaderLayout

/-! ## Data model -/

/-- The decoded / to-be-encoded unit (`AudioStreamPacket` of `protocol.h`). -/
structure AudioStreamPacket where
  sample_rate : Int
  frame_duration : Int
  /-- Field of type `uint32_t`. -/
  timestamp : Nat
  payload : List Byte
  deriving DecidableEq, Repr

/-- A parsed JSON item as the cJSON library represents it. Of a number only
`valueint` is kept: it is the only member the engine reads. -/
inductive cJSON where
  | null
  | bool (b : Bool)
  | number (valueint : Int)
  | string (valuestring : String)
  | array (items : List cJSON)
  | object (members : List (String × cJSON))

/-- Name comparison of `cJSON_GetObjectItem`, which ignores the case of ASCII
letters (`case_insensitive_strcmp` of the cJSON library). -/
def case_insensitive_eq (a b : String) : Bool :=
  a.data.map Char.toLower == b.data.map Char.toLower

/-- The first member called `name` (case ignored) of an object; null for a
null pointer, for an item that is not an object and for a missing member. -/
def cJSON_GetObjectItem (object : Option cJSON) (name : String) : Option cJSON :=
  match object with
  | some (cJSON.object members) =>
      (members.find? (fun m => case_insensitive_eq m.1 name)).map Prod.snd
  | _ => none

def cJSON_IsString : Option cJSON → Bool
  | some (cJSON.string _) => true
  | _ => false

def cJSON_IsNumber : Option cJSON → Bool
  | some (cJSON.number _) => true
  | _ => false

def cJSON_IsObject : Option cJSON → Bool
  | some (cJSON.object _) => true
  | _ => false

/-- The message constants of `Lang::Strings` that the engine passes to
`SetError`; their text lives in `assets/lang_config.h`. -/
inductive LangString where
  | SERVER_NOT_FOUND
  | SERVER_NOT_CONNECTED
  | SERVER_TIMEOUT
  | SERVER_ERROR
  deriving DecidableEq, Repr

/-- A call made on a collaborator, in the order the engine makes them. -/
inductive Event where
  | incoming_audio (packet : AudioStreamPacket)
  | incoming_json (root : cJSON)
  | audio_channel_opened
  | audio_channel_closed
  | network_error (message : LangString)
  | create_websocket
  | set_header (key value : String)
  | connect (url : String)
  | send_binary (data : List Byte)
  | send_text (text : String)
  | timer_start_once (timeout_us : Nat)
  | task_delay (ms : Nat)

/-- The transport handle `std::unique_ptr<WebSocket>` points to. -/
structure WebSocket where
  /-- Answer of `IsConnected()`. -/
  is_connected : Bool
  deriving DecidableEq, Repr

/-- Members of `Protocol` and `WebsocketProtocol`. An observer slot holds
whether a callback is registered; time points are ticks of the steady clock. -/
structure WebsocketProtocol where
  on_incoming_json_ : Bool
  on_incoming_audio_ : Bool
  on_audio_channel_opened_ : Bool
  on_audio_channel_closed_ : Bool
  on_network_error_ : Bool
  server_sample_rate_ : Int
  server_frame_duration_ : Int
  error_occurred_ : Bool
  session_id_ : String
  last_incoming_time_ : Int
  /-- Bit `WEBSOCKET_PROTOCOL_SERVER_HELLO_EVENT` of `event_group_handle_`. -/
  server_hello_event : Bool
  websocket_ : Option WebSocket
  version_ : Int
  connect_retry_count_ : Int
  reconnect_scheduled_ : Bool
  trace : List Event

def WEBSOCKET_RECONNECT_INTERVAL_MS : Nat := 30000
def WEBSOCKET_MAX_CONNECT_RETRIES : Int := 3

/-- Ticks of `std::chrono::steady_clock` in one second (a nanosecond clock). -/
def steady_clock_ticks_per_second : Int := 1000000000

/-! ## protocol.cc -/

/-- `Protocol::SetError`. -/
def SetError (s : WebsocketProtocol) (message : LangString) : WebsocketProtocol :=
  let s := { s with error_occurred_ := true }
  if s.on_network_error_ then
    { s with trace := s.trace ++ [Event.network_error message] }
  else s

/-- `Protocol::IsTimeout`, the clock reading `now` made explicit. -/
def IsTimeout (s : WebsocketProtocol) (now : Int) : Bool :=
  let kTimeoutSeconds : Int := 120
  let duration := (now - s.last_incoming_time_).tdiv steady_clock_ticks_per_second
  decide (duration > kTimeoutSeconds)

/-! ## websocket_protocol.cc -/

/-- `WebsocketProtocol::IsAudioChannelOpened`. -/
def IsAudioChannelOpened (s : WebsocketProtocol) (now : Int) : Bool :=
  match s.websocket_ with
  | none => false
  | some ws => ws.is_connected && !s.error_occurred_ && !IsTimeout s now

/-- The buffer `serialized` of `SendAudio` for version 2: resized to header
plus payload, then filled field by field. -/
def serialize2 (L : HeaderLayout) (version_ : Int) (packet : AudioStreamPacket) :
    Option (List Byte) := do
  let serialized := zeros (L.sizeof2 + packet.payload.length)
  let serialized ← store serialized L.off2_version (htons (version_ % 2 ^ 16).toNat)
  let serialized ← store serialized L.off2_type (zeros 2)
  let serialized ← store serialized L.off2_reserved (zeros L.v2_reserved)
  let serialized ← store serialized L.off2_timestamp (htonl packet.timestamp)
  let serialized ← store serialized L.off2_payload_size (htonl packet.payload.length)
  store serialized L.sizeof2 packet.payload

/-- The buffer `serialized` of `SendAudio` for version 3. -/
def serialize3 (L : HeaderLayout) (packet : AudioStreamPacket) : Option (List Byte) := do
  let serialized := zeros (L.sizeof3 + packet.payload.length)
  let serialized ← store serialized L.off3_type (zeros L.v3_type)
  let serialized ← store serialized L.off3_reserved (zeros L.v3_reserved)
  let serialized ← store serialized L.off3_payload_size (htons packet.payload.length)
  store serialized L.sizeof3 packet.payload

/-- The bytes `SendAudio` passes to `websocket_->Send(..., true)`; `none` when
it returns before sending, or when a store leaves the buffer. -/
def SendAudio_frame (L : HeaderLayout) (s : WebsocketProtocol) (packet : AudioStreamPacket) :
    Option (List Byte) :=
  match s.websocket_ with
  | none => none
  | some ws =>
    if !ws.is_connected then none
    else if s.version_ = 2 then serialize2 L s.version_ packet
    else if s.version_ = 3 then serialize3 L packet
    else some packet.payload

/-- `WebsocketProtocol::SendAudio`; `send_ok` is what `Send` answers. -/
def SendAudio (L : HeaderLayout) (s : WebsocketProtocol) (packet : AudioStreamPacket)
    (send_ok : Bool) : Bool × WebsocketProtocol :=
  match SendAudio_frame L s packet with
  | none => (false, s)
  | some frame => (send_ok, { s with trace := s.trace ++ [Event.send_binary frame] })

/-- What the binary branch of the `OnData` handler makes of a frame. -/
inductive FrameResult where
  /-- The frame is shorter than the header: logged, handler returns. -/
  | too_short
  /-- The declared payload size exceeds the bytes after the header: logged, handler returns. -/
  | payload_overflow
  /-- A load left the buffer. -/
  | out_of_bounds
  /-- The packet handed to `on_incoming_audio_`. -/
  | packet (p : AudioStreamPacket)
  deriving DecidableEq, Repr

/-- Body of `if (on_incoming_audio_ != nullptr)` in the `OnData` handler. The
handler converts the header fields in place; the fields do not overlap, so
each load sees the bytes as received. -/
def decode_frame (L : HeaderLayout) (s : WebsocketProtocol) (data : List Byte) : FrameResult :=
  let len := data.length
  if s.version_ = 2 then
    if len < L.sizeof2 then FrameResult.too_short
    else
      match load data L.off2_version 2, load data L.off2_type 2,
            load data L.off2_timestamp 4, load data L.off2_payload_size 4 with
      | some _, some _, some timestamp, some payload_size =>
        let timestamp := ntoh timestamp
        let payload_size := ntoh payload_size
        let max_payload := len - L.sizeof2
        if payload_size > max_payload then FrameResult.payload_overflow
        else
          match load data L.sizeof2 payload_size with
          | some payload =>
            FrameResult.packet
              { sample_rate := s.server_sample_rate_
                frame_duration := s.server_frame_duration_
                timestamp := timestamp
                payload := payload }
          | none => FrameResult.out_of_bounds
      | _, _, _, _ => FrameResult.out_of_bounds
  else if s.version_ = 3 then
    if len < L.sizeof3 then FrameResult.too_short
    else
      match load data L.off3_type L.v3_type, load data L.off3_payload_size 2 with
      | some _, some payload_size =>
        let payload_size := ntoh payload_size
        let max_payload := len - L.sizeof3
        if payload_size > max_payload then FrameResult.payload_overflow
        else
          match load data L.sizeof3 payload_size with
          | some payload =>
            FrameResult.packet
              { sample_rate := s.server_sample_rate_
                frame_duration := s.server_frame_duration_
                timestamp := 0
                payload := payload }
          | none => FrameResult.out_of_bounds
      | _, _ => FrameResult.out_of_bounds
  else
    match load data 0 len with
    | some payload =>
      FrameResult.packet
        { sample_rate := s.server_sample_rate_
          frame_duration := s.server_frame_duration_
          timestamp := 0
          payload := payload }
    | none => FrameResult.out_of_bounds

/-- `WebsocketProtocol::ParseServerHello`. -/
def ParseServerHello (s : WebsocketProtocol) (root : cJSON) : WebsocketProtocol :=
  match cJSON_GetObjectItem (some root) "transport" with
  | some (cJSON.string transport) =>
    if transport ≠ "websocket" then s
    else
      let session_id := cJSON_GetObjectItem (some root) "session_id"
      let s := match session_id with
        | some (cJSON.string valuestring) => { s with session_id_ := valuestring }
        | _ => s
      let audio_params := cJSON_GetObjectItem (some root) "audio_params"
      let s :=
        if cJSON_IsObject audio_params then
          let sample_rate := cJSON_GetObjectItem audio_params "sample_rate"
          let s := match sample_rate with
            | some (cJSON.number rate) =>
              if rate ≥ 8000 ∧ rate ≤ 48000 then { s with server_sample_rate_ := rate } else s
            | _ => s
          let frame_duration := cJSON_GetObjectItem audio_params "frame_duration"
          match frame_duration with
          | some (cJSON.number duration) =>
            if duration ≥ 10 ∧ duration ≤ 120 then { s with server_frame_duration_ := duration }
            else s
          | _ => s
        else s
      { s with server_hello_event := true }
  | _ => s

/-- The lambda `OpenAudioChannel` installs with `websocket_->OnData`; `now` is
the reading of the steady clock when the handler reaches its last statement. -/
def OnData (L : HeaderLayout) (cJSON_Parse : List Byte → Option cJSON)
    (s : WebsocketProtocol) (data : List Byte) (binary : Bool) (now : Int) :
    WebsocketProtocol :=
  if binary then
    if s.on_incoming_audio_ then
      match decode_frame L s data with
      | FrameResult.packet p =>
        { s with trace := s.trace ++ [Event.incoming_audio p], last_incoming_time_ := now }
      | _ => s
    else { s with last_incoming_time_ := now }
  else
    match cJSON_Parse data with
    | none => s
    | some root =>
      let s := match cJSON_GetObjectItem (some root) "type" with
        | some (cJSON.string valuestring) =>
          if valuestring = "hello" then ParseServerHello s root
          else if s.on_incoming_json_ then
            { s with trace := s.trace ++ [Event.incoming_json root] }
          else s
        | _ => s
      { s with last_incoming_time_ := now }

/-- The lambda installed with `websocket_->OnDisconnected`. -/
def OnDisconnected (s : WebsocketProtocol) : WebsocketProtocol :=
  if s.on_audio_channel_closed_ then
    { s with trace := s.trace ++ [Event.audio_channel_closed] }
  else s

/-- `WebsocketProtocol::SendText`; `send_ok` is what `Send` answers. -/
def SendText (s : WebsocketProtocol) (text : String) (send_ok : Bool) :
    Bool × WebsocketProtocol :=
  match s.websocket_ with
  | none => (false, s)
  | some ws =>
    if !ws.is_connected then (false, s)
    else
      let s := { s with trace := s.trace ++ [Event.send_text text] }
      if !send_ok then (false, SetError s LangString.SERVER_ERROR)
      else (true, s)

/-- `WebsocketProtocol::CloseAudioChannel`. -/
def CloseAudioChannel (s : WebsocketProtocol) : WebsocketProtocol :=
  { s with websocket_ := none }

/-- `std::string::substr(pos, n)` for `pos` within the string. -/
def substr (str : String) (pos n : Nat) : String := ⟨(str.data.drop pos).take n⟩

/-- `std::string::substr(pos)` for `pos` within the string. -/
def substr_from (str : String) (pos : Nat) : String := ⟨str.data.drop pos⟩

/-- What the collaborators answer during one call of `TryConnect`. -/
structure ConnectEnv where
  /-- `settings.GetString("url")`. -/
  url : String
  /-- `settings.GetString("token")`. -/
  token : String
  /-- `settings.GetInt("version")`. -/
  version : Int
  /-- `SystemInfo::GetMacAddress()`. -/
  mac_address : String
  /-- `Board::GetInstance().GetUuid()`. -/
  uuid : String
  /-- Whether `CreateWebSocket` returns a transport. -/
  create_ok : Bool
  /-- Answer of `Connect`. -/
  connect_ok : Bool

/-- `WebsocketProtocol::TryConnect`. -/
def TryConnect (s : WebsocketProtocol) (e : ConnectEnv) : Bool × WebsocketProtocol :=
  let s := if e.version ≠ 0 then { s with version_ := e.version } else s
  let checked : Option String :=
    if substr e.url 0 5 = "ws://" then some ("wss://" ++ substr_from e.url 5)
    else if substr e.url 0 6 ≠ "wss://" then none
    else some e.url
  match checked with
  | none => (false, SetError s LangString.SERVER_NOT_FOUND)
  | some url =>
    let s := { s with trace := s.trace ++ [Event.create_websocket] }
    if !e.create_ok then (false, { s with websocket_ := none })
    else
      let s := { s with websocket_ := some { is_connected := false } }
      let s :=
        if e.token ≠ "" then
          let token := if ' ' ∉ e.token.data then "Bearer " ++ e.token else e.token
          { s with trace := s.trace ++ [Event.set_header "Authorization" token] }
        else s
      let s := { s with trace := s.trace ++
        [Event.set_header "Protocol-Version" (toString s.version_),
         Event.set_header "Device-Id" e.mac_address,
         Event.set_header "Client-Id" e.uuid,
         Event.connect url] }
      if !e.connect_ok then (false, { s with websocket_ := none })
      else (true, { s with websocket_ := some { is_connected := true } })

/-- `WebsocketProtocol::ScheduleReconnect`. -/
def ScheduleReconnect (s : WebsocketProtocol) : WebsocketProtocol :=
  if !s.reconnect_scheduled_ ∧ s.connect_retry_count_ < WEBSOCKET_MAX_CONNECT_RETRIES then
    { s with
      reconnect_scheduled_ := true
      trace := s.trace ++ [Event.timer_start_once (WEBSOCKET_RECONNECT_INTERVAL_MS * 1000)] }
  else s

/-- The callback of `reconnect_timer_` the constructor registers. -/
def reconnect_timer_callback (s : WebsocketProtocol) : WebsocketProtocol :=
  { s with reconnect_scheduled_ := false }

/-- The retry loop of `OpenAudioChannel`; attempt number `i` (counted from 0,
the value of the retry counter when it starts) is answered by `attempts i`. -/
def connect_loop (attempts : Nat → ConnectEnv) (s : WebsocketProtocol) : WebsocketProtocol :=
  if s.connect_retry_count_ < WEBSOCKET_MAX_CONNECT_RETRIES then
    let r := TryConnect s (attempts s.connect_retry_count_.toNat)
    if r.1 then r.2
    else
      let s1 := { r.2 with connect_retry_count_ := r.2.connect_retry_count_ + 1 }
      let s2 :=
        if s1.connect_retry_count_ < WEBSOCKET_MAX_CONNECT_RETRIES then
          { s1 with trace := s1.trace ++ [Event.task_delay 1000] }
        else s1
      connect_loop attempts s2
  else s
termination_by (WEBSOCKET_MAX_CONNECT_RETRIES - s.connect_retry_count_).toNat
decreasing_by
  all_goals simp_wf
  have h : (TryConnect s (attempts s.connect_retry_count_.toNat)).2.connect_retry_count_
      = s.connect_retry_count_ := by
    unfold TryConnect SetError
    simp only
    repeat' split
    all_goals rfl
  split <;> simp_all

/-- Compile-time configuration read by `GetHelloMessage`. -/
structure BuildConfig where
  CONFIG_USE_SERVER_AEC : Bool
  OPUS_FRAME_DURATION_MS : Int

/-- The JSON tree `GetHelloMessage` builds. -/
def hello_message_json (cfg : BuildConfig) (version_ : Int) : cJSON :=
  let features :=
    (if cfg.CONFIG_USE_SERVER_AEC then [("aec", cJSON.bool true)] else []) ++
      [("mcp", cJSON.bool true)]
  let audio_params :=
    [("format", cJSON.string "opus"), ("sample_rate", cJSON.number 16000),
     ("channels", cJSON.number 1),
     ("frame_duration", cJSON.number cfg.OPUS_FRAME_DURATION_MS)]
  cJSON.object
    [("type", cJSON.string "hello"), ("version", cJSON.number version_),
     ("features", cJSON.object features), ("transport", cJSON.string "websocket"),
     ("audio_params", cJSON.object audio_params)]

/-- `WebsocketProtocol::GetHelloMessage`. -/
def GetHelloMessage (cJSON_PrintUnformatted : cJSON → String) (cfg : BuildConfig)
    (s : WebsocketProtocol) : String :=
  cJSON_PrintUnformatted (hello_message_json cfg s.version_)

/-- One delivery of the transport to the `OnData` handler. -/
structure Inbound where
  data : List Byte
  binary : Bool
  /-- Clock reading when the handler finishes. -/
  now : Int

/-- `xEventGroupWaitBits(..., SERVER_HELLO_EVENT, pdTRUE, pdFALSE, 10 s)` with the
deliveries `frames` the transport makes before the 10 seconds are over: the
answer is whether the bit was seen, and a bit that was seen is cleared. -/
def wait_server_hello (L : HeaderLayout) (cJSON_Parse : List Byte → Option cJSON) :
    WebsocketProtocol → List Inbound → Bool × WebsocketProtocol
  | s, [] =>
    if s.server_hello_event then (true, { s with server_hello_event := false })
    else (false, s)
  | s, f :: frames =>
    if s.server_hello_event then (true, { s with server_hello_event := false })
    else wait_server_hello L cJSON_Parse (OnData L cJSON_Parse s f.data f.binary f.now) frames

/-- What the collaborators answer during one call of `OpenAudioChannel`. -/
structure OpenEnv where
  /-- Answers to the successive calls of `TryConnect`. -/
  attempts : Nat → ConnectEnv
  /-- Answer of `Send` for the client hello. -/
  send_ok : Bool
  /-- Deliveries of the transport while the call waits for the server hello. -/
  inbound : List Inbound

/-- `WebsocketProtocol::OpenAudioChannel`. -/
def OpenAudioChannel (L : HeaderLayout) (cJSON_Parse : List Byte → Option cJSON)
    (cJSON_PrintUnformatted : cJSON → String) (cfg : BuildConfig)
    (s : WebsocketProtocol) (env : OpenEnv) : Bool × WebsocketProtocol :=
  let s := { s with error_occurred_ := false, connect_retry_count_ := 0 }
  let s := connect_loop env.attempts s
  match s.websocket_ with
  | none => (false, SetError s LangString.SERVER_NOT_CONNECTED)
  | some _ =>
    let message := GetHelloMessage cJSON_PrintUnformatted cfg s
    let r := SendText s message env.send_ok
    if !r.1 then (false, r.2)
    else
      let w := wait_server_hello L cJSON_Parse r.2 env.inbound
      if !w.1 then (false, SetError w.2 LangString.SERVER_TIMEOUT)
      else
        let s := w.2
        let s :=
          if s.on_audio_channel_opened_ then
            { s with trace := s.trace ++ [Event.audio_channel_opened] }
          else s
        (true, s)

/-- `cJSON_CreateObject`. -/
def cJSON_CreateObject : cJSON := cJSON.object []

/-- `cJSON_AddItemToObject`: the item becomes the last member of the object. -/
def cJSON_AddItemToObject (object : cJSON) (name : String) (item : cJSON) : cJSON :=
  match object with
  | cJSON.object members => cJSON.object (members ++ [(name, item)])
  | other => other

/-- `cJSON_AddStringToObject`. -/
def cJSON_AddStringToObject (object : cJSON) (name : String) (str : String) : cJSON :=
  cJSON_AddItemToObject object name (cJSON.string str)

/-- `Protocol::SendMcpMessage`, with the `SendText` of `WebsocketProtocol`;
`cJSON_Parse` reads the payload text and `send_ok` is what `Send` answers. -/
def SendMcpMessage (cJSON_Parse : String → Option cJSON)
    (cJSON_PrintUnformatted : cJSON → String) (s : WebsocketProtocol) (payload : String)
    (send_ok : Bool) : WebsocketProtocol :=
  let root := cJSON_CreateObject
  let root := cJSON_AddStringToObject root "session_id" s.session_id_
  let root := cJSON_AddStringToObject root "type" "mcp"
  let root :=
    match cJSON_Parse payload with
    | some payload_json => cJSON_AddItemToObject root "payload" payload_json
    | none => cJSON_AddStringToObject root "payload" payload
  let message := cJSON_PrintUnformatted root
  (SendText s message send_ok).2

/-! ## backlight.cc -/

/-- Modelled from the spec: `backlight.h`, which declares the members of
`Backlight`, is not among the sources. `brightness_` and `target_brightness_`
are `uint8_t` like the parameters of `SetBrightness` and `SetBrightnessImpl`;
`step_` is a signed integer, as the negated step and the test `step_ > 0` need
(its values stay within [-17, 17]). `timer_running` tells whether the periodic
transition timer is started, `duty_calls` lists the arguments of
`SetBrightnessImpl`, `saved` the values written to the settings. -/
structure Backlight where
  brightness_ : Nat
  target_brightness_ : Nat
  step_ : Int
  timer_running : Bool
  duty_calls : List Nat
  saved : List Nat

/-- `Backlight::SetBrightness`; `brightness` is the `uint8_t` argument. -/
def SetBrightness (s : Backlight) (brightness : Nat) (permanent : Bool) : Backlight :=
  let brightness := if brightness > 100 then 100 else brightness
  if s.brightness_ = brightness then s
  else
    let s := if permanent then { s with saved := s.saved ++ [brightness] } else s
    let s := { s with target_brightness_ := brightness }
    let diff : Int := ((s.target_brightness_ : Int) - (s.brightness_ : Int)).natAbs
    let s :=
      if diff > 0 then
        { s with step_ :=
            if s.target_brightness_ > s.brightness_ then max 1 (diff / 15)
            else -(max 1 (diff / 15)) }
      else
        { s with step_ := if s.target_brightness_ > s.brightness_ then 1 else -1 }
    { s with timer_running := true }

/-- `Backlight::OnTransitionTimer`. -/
def OnTransitionTimer (s : Backlight) : Backlight :=
  if s.brightness_ = s.target_brightness_ then { s with timer_running := false }
  else
    let new_brightness : Int := (s.brightness_ : Int) + s.step_
    let s :=
      if s.step_ > 0 then
        if new_brightness ≥ (s.target_brightness_ : Int) then
          { s with brightness_ := s.target_brightness_ }
        else { s with brightness_ := (new_brightness % 256).toNat }
      else
        if new_brightness ≤ (s.target_brightness_ : Int) then
          { s with brightness_ := s.target_brightness_ }
        else { s with brightness_ := (new_brightness % 256).toNat }
    let s := { s with duty_calls := s.duty_calls ++ [s.brightness_] }
    if s.brightness_ = s.target_brightness_ then { s with timer_running := false } else s

/-- `Backlight::RestoreBrightness`; `saved_brightness` is what
`settings.GetInt("brightness", 75)` answers. The call of `SetBrightness`
converts the `int` to `uint8_t`; `permanent` takes its default `false`. -/
def RestoreBrightness (s : Backlight) (saved_brightness : Int) : Backlight :=
  let saved_brightness := if saved_brightness ≤ 0 then 10 else saved_brightness
  SetBrightness s (saved_brightness % 256).toNat false

/-! ## Vocabulary of the properties -/

/-- Header size of a wire version: `sizeof(BinaryProtocol2)`, `sizeof(BinaryProtocol3)`,
and no header for every other version. -/
def header_size (L : HeaderLayout) (version : Int) : Nat :=
  if version = 2 then L.sizeof2 else if version = 3 then L.sizeof3 else 0

/-- The `payload_size` a frame declares, read in network byte order (0 for a
version without header). -/
def declared_payload_size (L : HeaderLayout) (version : Int) (data : List Byte) : Nat :=
  if version = 2 then ntoh ((data.drop L.off2_payload_size).take 4)
  else if version = 3 then ntoh ((data.drop L.off3_payload_size).take 2)
  else 0

/-- The `timestamp` field of a version-2 frame, read in network byte order. -/
def header_timestamp (L : HeaderLayout) (data : List Byte) : Nat :=
  ntoh ((data.drop L.off2_timestamp).take 4)

/-- An engine as constructed, with every observer registered and wire version `v`. -/
def engine (v : Int) : WebsocketProtocol :=
  { on_incoming_json_ := true, on_incoming_audio_ := true, on_audio_channel_opened_ := true,
    on_audio_channel_closed_ := true, on_network_error_ := true,
    server_sample_rate_ := 24000, server_frame_duration_ := 60,
    error_occurred_ := false, session_id_ := "", last_incoming_time_ := 0,
    server_hello_event := false, websocket_ := none, version_ := v,
    connect_retry_count_ := 0, reconnect_scheduled_ := false, trace := [] }

/-- A layout with a 12-byte version-2 header and a 6-byte version-3 header. -/
def layout_12_6 : HeaderLayout := ⟨0, 2, 2⟩

/-- A JSON parser that accepts nothing, for frames that are not text. -/
def parse_nothing : List Byte → Option cJSON := fun _ => none

/-- An engine without audio-packet observer, holding a connected transport. -/
def engine_without_audio_observer (v : Int) : WebsocketProtocol :=
  { engine v with on_incoming_audio_ := false, websocket_ := some { is_connected := true } }

/-- A version-2 header declaring one payload byte, with no byte after it. -/
def overflowing_frame (L : HeaderLayout) : List Byte :=
  htons 2 ++ zeros 2 ++ zeros L.v2_reserved ++ htonl 0 ++ htonl 1

/-- A version-2 frame: timestamp 258, three payload bytes. -/
def sample_frame_v2 (L : HeaderLayout) : List Byte :=
  htons 2 ++ zeros 2 ++ zeros L.v2_reserved ++ htonl 258 ++ htonl 3 ++ [7, 8, 9]

/-- The `width` bytes of a field holding `x`, most significant byte first. -/
def big_endian : Nat → Nat → List Byte
  | 0, _ => []
  | width + 1, x => big_endian width (x / 256) ++ [byteOf x]

/-- The encoding the spec describes. Version 2: the header fields `version`,
`type = 0`, `reserved = 0`, `timestamp`, `payload_size`, each in network byte
order, then the payload. Version 3: `type = 0`, `reserved = 0`, `payload_size`,
then the payload. Any other version: the payload verbatim. A field keeps the
low-order bytes of its value. -/
def reference_encoding (L : HeaderLayout) (version : Int) (packet : AudioStreamPacket) :
    List Byte :=
  if version = 2 then
    big_endian 2 2 ++ big_endian 2 0 ++ big_endian L.v2_reserved 0 ++
      big_endian 4 packet.timestamp ++ big_endian 4 packet.payload.length ++ packet.payload
  else if version = 3 then
    big_endian L.v3_type 0 ++ big_endian L.v3_reserved 0 ++
      big_endian 2 packet.payload.length ++ packet.payload
  else packet.payload

/-- The encoding with the field widths the claim lists, whatever the header
declarations are. Version 2: `version:u16`, `type:u16 = 0`, `reserved:u16 = 0`,
`timestamp:u32`, `payload_size:u32`, then the payload. Version 3: `type:u16 = 0`,
`reserved:u16 = 0`, `payload_size:u16`, then the payload. Any other version: the
payload verbatim. -/
def listed_encoding (version : Int) (packet : AudioStreamPacket) : List Byte :=
  if version = 2 then
    big_endian 2 2 ++ big_endian 2 0 ++ big_endian 2 0 ++
      big_endian 4 packet.timestamp ++ big_endian 4 packet.payload.length ++ packet.payload
  else if version = 3 then
    big_endian 2 0 ++ big_endian 2 0 ++ big_endian 2 packet.payload.length ++ packet.payload
  else packet.payload

/-- The header of a frame is the one `SendAudio` writes: under version 2 the
`version` field holds 2 and `type` and `reserved` hold 0, under version 3
`type` and `reserved` hold 0. -/
def canonical_header (L : HeaderLayout) (version : Int) (data : List Byte) : Prop :=
  (version = 2 →
    load data L.off2_version 2 = some (htons 2) ∧
    load data L.off2_type 2 = some (zeros 2) ∧
    load data L.off2_reserved L.v2_reserved = some (zeros L.v2_reserved)) ∧
  (version = 3 →
    load data L.off3_type L.v3_type = some (zeros L.v3_type) ∧
    load data L.off3_reserved L.v3_reserved = some (zeros L.v3_reserved))

instance (L : HeaderLayout) (version : Int) (data : List Byte) :
    Decidable (canonical_header L version data) := by
  unfold canonical_header
  infer_instance

/-- An engine with every observer registered, holding a connected transport. -/
def connected_engine (v : Int) : WebsocketProtocol :=
  { engine v with websocket_ := some { is_connected := true } }

/-- A valid version-2 frame without payload whose `type` field holds 1. -/
def frame_with_type_1 (L : HeaderLayout) : List Byte :=
  htons 2 ++ htons 1 ++ zeros L.v2_reserved ++ htonl 0 ++ htonl 0

/-- A valid version-2 frame declaring no payload, followed by one more byte. -/
def frame_with_trailing_byte (L : HeaderLayout) : List Byte :=
  htons 2 ++ zeros 2 ++ zeros L.v2_reserved ++ htonl 0 ++ htonl 0 ++ [9]

/-- The value negotiated from a member of `audio_params`: the member's integer
when it is a number within `[lo, hi]`, the current value otherwise. -/
def accepted_value (item : Option cJSON) (lo hi current : Int) : Int :=
  match item with
  | some (cJSON.number value) => if value ≥ lo ∧ value ≤ hi then value else current
  | _ => current

/-- The session id after a hello: the `session_id` member when it is a string,
the current id otherwise. -/
def accepted_session_id (item : Option cJSON) (current : String) : String :=
  match item with
  | some (cJSON.string valuestring) => valuestring
  | _ => current

/-- The server hello of the spec's scenario. -/
def scenario_hello : cJSON :=
  cJSON.object
    [("type", cJSON.string "hello"), ("transport", cJSON.string "websocket"),
     ("session_id", cJSON.string "abc123"),
     ("audio_params", cJSON.object
       [("sample_rate", cJSON.number 24000), ("frame_duration", cJSON.number 40)])]

/-- A server hello naming another transport, with a session id and audio parameters. -/
def mqtt_hello : cJSON :=
  cJSON.object
    [("type", cJSON.string "hello"), ("transport", cJSON.string "mqtt"),
     ("session_id", cJSON.string "abc123"),
     ("audio_params", cJSON.object
       [("sample_rate", cJSON.number 16000), ("frame_duration", cJSON.number 20)])]

/-- A server hello whose audio parameters are both out of range. -/
def out_of_range_hello : cJSON :=
  cJSON.object
    [("type", cJSON.string "hello"), ("transport", cJSON.string "websocket"),
     ("audio_params", cJSON.object
       [("sample_rate", cJSON.number 96000), ("frame_duration", cJSON.number 5)])]

/-- The engine after one round of the retry loop whose attempt, answered by
`e`, fails: the retry counter is incremented and, when a further attempt is due,
the task pauses for 1000 ms. -/
def failed_round (e : ConnectEnv) (s : WebsocketProtocol) : WebsocketProtocol :=
  let s1 := { (TryConnect s e).2 with connect_retry_count_ := s.connect_retry_count_ + 1 }
  if s1.connect_retry_count_ < WEBSOCKET_MAX_CONNECT_RETRIES then
    { s1 with trace := s1.trace ++ [Event.task_delay 1000] }
  else s1

/-- Some build configuration. -/
def sample_config : BuildConfig := { CONFIG_USE_SERVER_AEC := false, OPUS_FRAME_DURATION_MS := 60 }

/-- A JSON printer whose output does not matter. -/
def print_nothing : cJSON → String := fun _ => ""

/-- A JSON parser that reads every text frame as the hello of the scenario. -/
def parse_scenario_hello : List Byte → Option cJSON := fun _ => some scenario_hello

/-- Settings whose address has neither the `ws://` nor the `wss://` scheme. -/
def rejected_address : ConnectEnv :=
  { url := "http://example.com/", token := "", version := 0, mac_address := "", uuid := "",
    create_ok := true, connect_ok := true }

/-- Every attempt meets the rejected address; the hello is sent and the peer
answers with a server hello within the wait. -/
def rejected_address_env : OpenEnv :=
  { attempts := fun _ => rejected_address
    send_ok := true
    inbound := [{ data := [], binary := false, now := 1 }] }

/-- An engine that still holds the connected transport of an earlier call. -/
def engine_with_stale_handle : WebsocketProtocol :=
  { connected_engine 1 with error_occurred_ := true, connect_retry_count_ := 2 }

/-- The address `TryConnect` goes on with after its scheme check, `none` when
the check rejects the configured address. -/
def checked_address (url : String) : Option String :=
  if substr url 0 5 = "ws://" then some ("wss://" ++ substr_from url 5)
  else if substr url 0 6 ≠ "wss://" then none
  else some url

/-- The addresses passed to `Connect`, in order. -/
def connect_calls (tr : List Event) : List String :=
  tr.filterMap (fun ev => match ev with
    | Event.connect url => some url
    | _ => none)

/-- The number of calls of `CreateWebSocket`. -/
def creations (tr : List Event) : Nat :=
  (tr.filter (fun ev => match ev with
    | Event.create_websocket => true
    | _ => false)).length

/-- The values the `Authorization` header was set to, in order. -/
def authorization_headers (tr : List Event) : List String :=
  tr.filterMap (fun ev => match ev with
    | Event.set_header "Authorization" value => some value
    | _ => none)

/-- The notifications of the network-error observer, in order. -/
def network_errors (tr : List Event) : List LangString :=
  tr.filterMap (fun ev => match ev with
    | Event.network_error message => some message
    | _ => none)

/-- The pauses of the task, in order. -/
def task_delays (tr : List Event) : List Nat :=
  tr.filterMap (fun ev => match ev with
    | Event.task_delay ms => some ms
    | _ => none)

/-- Settings with a `wss://` address and the given token; transport creation
and connection succeed. -/
def secure_address (token : String) : ConnectEnv :=
  { url := "wss://example.com/ws", token := token, version := 0, mac_address := "mac",
    uuid := "uuid", create_ok := true, connect_ok := true }

/-- Settings with a `ws://` address. -/
def insecure_address : ConnectEnv :=
  { url := "ws://example.com/ws", token := "", version := 0, mac_address := "mac",
    uuid := "uuid", create_ok := true, connect_ok := true }

/-- A token with a tab and no space character. -/
def token_with_tab : String := ⟨['a', Char.ofNat 9, 'b']⟩

/-- The address is accepted, the transport connects and the hello is sent, but
nothing arrives during the wait for the server hello. -/
def silent_peer_env : OpenEnv :=
  { attempts := fun _ => secure_address ""
    send_ok := true
    inbound := [] }

/-- A parsed message without `type` member. -/
def untyped_message : cJSON := cJSON.object [("state", cJSON.string "start")]

/-- A JSON parser that reads every text frame as the message without `type`. -/
def parse_untyped_message : List Byte → Option cJSON := fun _ => some untyped_message

/-- A parsed message of type "tts". -/
def tts_message : cJSON :=
  cJSON.object [("type", cJSON.string "tts"), ("state", cJSON.string "start")]

/-- A JSON parser that reads every text frame as the "tts" message. -/
def parse_tts_message : List Byte → Option cJSON := fun _ => some tts_message

/-- The JSON object the spec describes for the MCP passthrough. -/
def mcp_message (session_id : String) (payload : cJSON) : cJSON :=
  cJSON.object
    [("session_id", cJSON.string session_id), ("type", cJSON.string "mcp"),
     ("payload", payload)]

/-- The backlight after `n` ticks of the transition timer. -/
def after_ticks : Nat → Backlight → Backlight
  | 0, s => s
  | n + 1, s => after_ticks n (OnTransitionTimer s)

/-- A backlight at brightness `c` with no transition under way. -/
def backlight_at (c : Nat) : Backlight :=
  { brightness_ := c, target_brightness_ := c, step_ := 1, timer_running := false,
    duty_calls := [], saved := [] }

/-- A parser of payload texts that accepts only the text "1", as the number 1. -/
def parse_one : String → Option cJSON := fun p => if p = "1" then some (cJSON.number 1) else none

/-- A transition toward `t` with steps of size `m` is under way or finished:
the step points from the brightness to the target. -/
def transition_invariant (t : Nat) (m : Int) (s : Backlight) : Prop :=
  s.target_brightness_ = t ∧ t ≤ 100 ∧ s.brightness_ ≤ 100 ∧ 1 ≤ m ∧
  ((s.brightness_ ≤ t ∧ s.step_ = m) ∨ (t ≤ s.brightness_ ∧ s.step_ = -m))

/-- The distance of the brightness from `t`. -/
def distance_to (t : Nat) (s : Backlight) : Nat := ((t : Int) - (s.brightness_ : Int)).natAbs

/-- A packet whose payload has 65536 bytes. -/
def packet_of_65536_bytes : AudioStreamPacket :=
  { sample_rate := 24000, frame_duration := 60, timestamp := 0,
    payload := List.replicate 65536 0 }

/-- A packet with timestamp 258 and payload 7, 8, 9. -/
def sample_packet : AudioStreamPacket :=
  { sample_rate := 16000, frame_duration := 20, timestamp := 258, payload := [7, 8, 9] }

/-! ## Loads and stores -/

theorem load_eq_some {data : List Byte} {off n : Nat} (h : off + n ≤ data.length) :
    load data off n = some ((data.drop off).take n) := by
  simp [load, h]

theorem load_ne_none_iff {data : List Byte} {off n : Nat} :
    load data off n ≠ none ↔ off + n ≤ data.length := by
  unfold load
  split <;> simp_all

theorem length_of_load {data bs : List Byte} {off n : Nat} (h : load data off n = some bs) :
    bs.length = n ∧ off + n ≤ data.length := by
  unfold load at h
  split at h
  · cases h
    simp
    omega
  · cases h

/-! ## The binary branch of the inbound handler, case by case -/

theorem decode_frame_v2 (L : HeaderLayout) (s : WebsocketProtocol) (data : List Byte)
    (hv : s.version_ = 2) :
    decode_frame L s data =
      if data.length < L.sizeof2 then FrameResult.too_short
      else if declared_payload_size L 2 data > data.length - L.sizeof2 then
        FrameResult.payload_overflow
      else FrameResult.packet
        { sample_rate := s.server_sample_rate_
          frame_duration := s.server_frame_duration_
          timestamp := header_timestamp L data
          payload := (data.drop L.sizeof2).take (declared_payload_size L 2 data) } := by
  unfold decode_frame
  simp only [hv, if_true]
  by_cases hlen : data.length < L.sizeof2
  · simp [hlen]
  · have hs : L.sizeof2 = 2 + 2 + L.v2_reserved + 4 + 4 := rfl
    simp only [hlen, if_false]
    rw [load_eq_some (by simp only [HeaderLayout.off2_version]; omega),
      load_eq_some (by simp only [HeaderLayout.off2_type]; omega),
      load_eq_some (by simp only [HeaderLayout.off2_timestamp]; omega),
      load_eq_some (by simp only [HeaderLayout.off2_payload_size]; omega)]
    simp only [declared_payload_size, header_timestamp, if_true]
    split
    · rfl
    · rename_i hle
      rw [load_eq_some (by omega)]

theorem decode_frame_v3 (L : HeaderLayout) (s : WebsocketProtocol) (data : List Byte)
    (hv : s.version_ = 3) :
    decode_frame L s data =
      if data.length < L.sizeof3 then FrameResult.too_short
      else if declared_payload_size L 3 data > data.length - L.sizeof3 then
        FrameResult.payload_overflow
      else FrameResult.packet
        { sample_rate := s.server_sample_rate_
          frame_duration := s.server_frame_duration_
          timestamp := 0
          payload := (data.drop L.sizeof3).take (declared_payload_size L 3 data) } := by
  unfold decode_frame
  have h32 : ¬ ((3 : Int) = 2) := by decide
  simp only [hv, h32, if_true, if_false]
  by_cases hlen : data.length < L.sizeof3
  · simp [hlen]
  · have hs : L.sizeof3 = L.v3_type + L.v3_reserved + 2 := rfl
    simp only [hlen, if_false]
    rw [load_eq_some (by simp only [HeaderLayout.off3_type]; omega),
      load_eq_some (by simp only [HeaderLayout.off3_payload_size]; omega)]
    simp only [declared_payload_size, h32, if_true, if_false]
    split
    · rfl
    · rename_i hle
      rw [load_eq_some (by omega)]

theorem decode_frame_v1 (L : HeaderLayout) (s : WebsocketProtocol) (data : List Byte)
    (h2 : s.version_ ≠ 2) (h3 : s.version_ ≠ 3) :
    decode_frame L s data = FrameResult.packet
      { sample_rate := s.server_sample_rate_
        frame_duration := s.server_frame_duration_
        timestamp := 0
        payload := data } := by
  unfold decode_frame
  simp [h2, h3, load]

theorem decode_frame_ne_out_of_bounds (L : HeaderLayout) (s : WebsocketProtocol)
    (data : List Byte) : decode_frame L s data ≠ FrameResult.out_of_bounds := by
  by_cases h2 : s.version_ = 2
  · rw [decode_frame_v2 L s data h2]
    repeat' split
    all_goals simp
  · by_cases h3 : s.version_ = 3
    · rw [decode_frame_v3 L s data h3]
      repeat' split
      all_goals simp
    · rw [decode_frame_v1 L s data h2 h3]
      simp

/-- A field that lies inside the header is determined by the header bytes. -/
theorem field_of_header (data : List Byte) (hdr off n : Nat) (h : off + n ≤ hdr) :
    (data.drop off).take n = (((data.take hdr).drop off).take n) := by
  rw [List.drop_take, List.take_take]
  congr 1
  omega

theorem declared_payload_size_of_header (L : HeaderLayout) (v : Int) (data data' : List Byte)
    (h : data'.take (header_size L v) = data.take (header_size L v)) :
    declared_payload_size L v data' = declared_payload_size L v data := by
  unfold declared_payload_size
  unfold header_size at h
  by_cases h2 : v = 2
  · simp only [h2, if_true] at h ⊢
    have hb : L.off2_payload_size + 4 ≤ L.sizeof2 := by
      simp only [HeaderLayout.off2_payload_size, HeaderLayout.sizeof2]
      omega
    rw [field_of_header data' L.sizeof2 _ 4 hb, field_of_header data L.sizeof2 _ 4 hb, h]
  · by_cases h3 : v = 3
    · have h32 : ¬ ((3 : Int) = 2) := by decide
      simp only [h3, h32, if_true, if_false] at h ⊢
      have hb : L.off3_payload_size + 2 ≤ L.sizeof3 := by
        simp only [HeaderLayout.off3_payload_size, HeaderLayout.sizeof3]
        omega
      rw [field_of_header data' L.sizeof3 _ 2 hb, field_of_header data L.sizeof3 _ 2 hb, h]
    · simp [h2, h3]

theorem decode_frame_too_short (L : HeaderLayout) (s : WebsocketProtocol) (data : List Byte)
    (hv : s.version_ = 2 ∨ s.version_ = 3) (hlen : data.length < header_size L s.version_) :
    decode_frame L s data = FrameResult.too_short := by
  rcases hv with h2 | h3
  · rw [decode_frame_v2 L s data h2]
    simp only [header_size, h2, if_true] at hlen
    simp [hlen]
  · rw [decode_frame_v3 L s data h3]
    have h32 : ¬ ((3 : Int) = 2) := by decide
    simp only [header_size, h3, h32, if_true, if_false] at hlen
    simp [hlen]

theorem decode_frame_overflow (L : HeaderLayout) (s : WebsocketProtocol) (data : List Byte)
    (hv : s.version_ = 2 ∨ s.version_ = 3) (hlen : header_size L s.version_ ≤ data.length)
    (hov : declared_payload_size L s.version_ data > data.length - header_size L s.version_) :
    decode_frame L s data = FrameResult.payload_overflow := by
  rcases hv with h2 | h3
  · rw [decode_frame_v2 L s data h2]
    simp only [header_size, h2, if_true] at hlen hov
    simp [Nat.not_lt.mpr hlen, hov]
  · rw [decode_frame_v3 L s data h3]
    have h32 : ¬ ((3 : Int) = 2) := by decide
    simp only [header_size, h3, h32, if_true, if_false] at hlen hov
    simp [Nat.not_lt.mpr hlen, hov]

/-! ## The binary frame codec: inbound frames -/

/-- C2: under wire version 2 or 3, a binary frame shorter than the header of
the active version fails to decode as a truncated header; the handler's result
is the same for every buffer of that length (no header field is read), no
observer is invoked, and the frame leaves no trace: the engine is unchanged
when an audio observer is registered, and only its liveness time is set when
none is. -/
theorem truncated_header_frame_dropped (L : HeaderLayout)
    (cJSON_Parse : List Byte → Option cJSON) (s : WebsocketProtocol) (data : List Byte)
    (now : Int) (hv : s.version_ = 2 ∨ s.version_ = 3)
    (hlen : data.length < header_size L s.version_) :
    decode_frame L s data = FrameResult.too_short ∧
    (∀ data' : List Byte, data'.length = data.length →
      OnData L cJSON_Parse s data' true now = OnData L cJSON_Parse s data true now) ∧
    (OnData L cJSON_Parse s data true now).trace = s.trace ∧
    OnData L cJSON_Parse s data true now =
      if s.on_incoming_audio_ then s else { s with last_incoming_time_ := now } := by
  have hd := decode_frame_too_short L s data hv hlen
  refine ⟨hd, ?_, ?_, ?_⟩
  · intro data' hlen'
    have hd' := decode_frame_too_short L s data' hv (by omega)
    simp [OnData, hd, hd']
  · simp only [OnData, hd, if_true]
    split <;> rfl
  · simp [OnData, hd]

/-- Witness of C2: an 11-byte frame under a 12-byte version-2 header. -/
theorem truncated_header_frame_dropped_witness :
    ((engine 2).version_ = 2 ∨ (engine 2).version_ = 3) ∧
    (zeros 11).length < header_size layout_12_6 (engine 2).version_ ∧
    decode_frame layout_12_6 (engine 2) (zeros 11) = FrameResult.too_short ∧
    (∀ data' : List Byte, data'.length = (zeros 11).length →
      OnData layout_12_6 parse_nothing (engine 2) data' true 7 =
        OnData layout_12_6 parse_nothing (engine 2) (zeros 11) true 7) ∧
    (OnData layout_12_6 parse_nothing (engine 2) (zeros 11) true 7).trace = (engine 2).trace ∧
    OnData layout_12_6 parse_nothing (engine 2) (zeros 11) true 7 =
      if (engine 2).on_incoming_audio_ then engine 2
      else { engine 2 with last_incoming_time_ := 7 } :=
  ⟨by decide, by decide,
    truncated_header_frame_dropped layout_12_6 parse_nothing (engine 2) (zeros 11) 7
      (by decide) (by decide)⟩

/-- C1, as stated, fails when no audio-packet observer is registered: the
handler then skips the decoding and reaches its last statement, so an
overflowing frame moves `last_incoming_time_` (here from 0 to 5), under a
12-byte header as under the 14-byte header of the listed fields. -/
theorem overflow_frame_liveness_counterexample :
    ((engine_without_audio_observer 2).version_ = 2 ∨
      (engine_without_audio_observer 2).version_ = 3) ∧
    (header_size layout_12_6 2 ≤ (overflowing_frame layout_12_6).length ∧
      declared_payload_size layout_12_6 2 (overflowing_frame layout_12_6) >
        (overflowing_frame layout_12_6).length - header_size layout_12_6 2 ∧
      (OnData layout_12_6 parse_nothing (engine_without_audio_observer 2)
        (overflowing_frame layout_12_6) true 5).last_incoming_time_ ≠
        (engine_without_audio_observer 2).last_incoming_time_) ∧
    (header_size layout_14_6 2 ≤ (overflowing_frame layout_14_6).length ∧
      declared_payload_size layout_14_6 2 (overflowing_frame layout_14_6) >
        (overflowing_frame layout_14_6).length - header_size layout_14_6 2 ∧
      (OnData layout_14_6 parse_nothing (engine_without_audio_observer 2)
        (overflowing_frame layout_14_6) true 5).last_incoming_time_ ≠
        (engine_without_audio_observer 2).last_incoming_time_) := by
  decide

/-- C1, amended: under wire version 2 or 3, a binary frame at least as long as
the header whose declared payload size exceeds the bytes after the header is
dropped. The decoding fails as a payload overflow; the handler's result is the
same for every buffer of that length with the same header (no payload byte is
read); no observer is invoked; transport handle and error flag are unchanged;
with an audio observer registered the whole engine, `last_incoming_time_`
included, is unchanged, and without one only `last_incoming_time_` is set to the
current time; in both cases a channel reported open at that time is still
reported open. -/
theorem payload_overflow_frame_dropped (L : HeaderLayout)
    (cJSON_Parse : List Byte → Option cJSON) (s : WebsocketProtocol) (data : List Byte)
    (now : Int) (hv : s.version_ = 2 ∨ s.version_ = 3)
    (hlen : header_size L s.version_ ≤ data.length)
    (hov : declared_payload_size L s.version_ data >
      data.length - header_size L s.version_) :
    decode_frame L s data = FrameResult.payload_overflow ∧
    (∀ data' : List Byte, data'.length = data.length →
      data'.take (header_size L s.version_) = data.take (header_size L s.version_) →
      OnData L cJSON_Parse s data' true now = OnData L cJSON_Parse s data true now) ∧
    (OnData L cJSON_Parse s data true now).trace = s.trace ∧
    (OnData L cJSON_Parse s data true now).websocket_ = s.websocket_ ∧
    (OnData L cJSON_Parse s data true now).error_occurred_ = s.error_occurred_ ∧
    (s.on_incoming_audio_ = true → OnData L cJSON_Parse s data true now = s) ∧
    (s.on_incoming_audio_ = false →
      OnData L cJSON_Parse s data true now = { s with last_incoming_time_ := now }) ∧
    (IsAudioChannelOpened s now = true →
      IsAudioChannelOpened (OnData L cJSON_Parse s data true now) now = true) := by
  have hd := decode_frame_overflow L s data hv hlen hov
  have hres : OnData L cJSON_Parse s data true now =
      if s.on_incoming_audio_ then s else { s with last_incoming_time_ := now } := by
    simp [OnData, hd]
  refine ⟨hd, ?_, ?_, ?_, ?_, ?_, ?_, ?_⟩
  · intro data' hlen' hhdr
    have hps := declared_payload_size_of_header L s.version_ data data' hhdr
    have hd' := decode_frame_overflow L s data' hv (by omega) (by omega)
    simp [OnData, hd, hd']
  · rw [hres]; split <;> rfl
  · rw [hres]; split <;> rfl
  · rw [hres]; split <;> rfl
  · intro h; rw [hres, h]; rfl
  · intro h; rw [hres, h]; rfl
  · intro hopen
    rw [hres]
    by_cases ho : s.on_incoming_audio_ = true
    · rw [if_pos ho]; exact hopen
    · rw [if_neg ho]
      unfold IsAudioChannelOpened at hopen ⊢
      cases hw : s.websocket_ with
      | none => rw [hw] at hopen; cases hopen
      | some ws =>
        rw [hw] at hopen
        simp only [Bool.and_eq_true, Bool.not_eq_true'] at hopen ⊢
        refine ⟨⟨hopen.1.1, hopen.1.2⟩, ?_⟩
        simp [IsTimeout]

/-- Witness of C1: the overflowing frame under a 12-byte header, observer registered. -/
theorem payload_overflow_frame_dropped_witness :
    header_size layout_12_6 (engine 2).version_ ≤ (overflowing_frame layout_12_6).length ∧
    declared_payload_size layout_12_6 (engine 2).version_ (overflowing_frame layout_12_6) >
      (overflowing_frame layout_12_6).length - header_size layout_12_6 (engine 2).version_ ∧
    decode_frame layout_12_6 (engine 2) (overflowing_frame layout_12_6) =
      FrameResult.payload_overflow ∧
    (OnData layout_12_6 parse_nothing (engine 2) (overflowing_frame layout_12_6) true 5).trace =
      (engine 2).trace ∧
    ((engine 2).on_incoming_audio_ = true →
      OnData layout_12_6 parse_nothing (engine 2) (overflowing_frame layout_12_6) true 5 =
        engine 2) :=
  have h := payload_overflow_frame_dropped layout_12_6 parse_nothing (engine 2)
    (overflowing_frame layout_12_6) 5 (by decide) (by decide) (by decide)
  ⟨by decide, by decide, h.1, h.2.2.1, h.2.2.2.2.2.1⟩

/-- C3: a binary frame that decodes to a packet `p` gives `p` the negotiated
sample rate and frame duration of the session, the header's timestamp (network
byte order) under version 2 and timestamp 0 under every other version, and as
payload the bytes that follow the header, as many as the header declares (the
whole input when the version has no header); that byte range lies inside the
input. With an observer registered the handler hands over exactly `p` and
records the time. No input makes the decoding load outside its buffer. -/
theorem decoded_packet_fields (L : HeaderLayout) (cJSON_Parse : List Byte → Option cJSON)
    (s : WebsocketProtocol) (data : List Byte) (now : Int) (p : AudioStreamPacket)
    (h : decode_frame L s data = FrameResult.packet p) :
    p.sample_rate = s.server_sample_rate_ ∧
    p.frame_duration = s.server_frame_duration_ ∧
    p.timestamp = (if s.version_ = 2 then header_timestamp L data else 0) ∧
    p.payload = (data.drop (header_size L s.version_)).take p.payload.length ∧
    header_size L s.version_ + p.payload.length ≤ data.length ∧
    (s.version_ = 2 ∨ s.version_ = 3 →
      p.payload.length = declared_payload_size L s.version_ data) ∧
    (s.version_ ≠ 2 → s.version_ ≠ 3 → p.payload = data) ∧
    (s.on_incoming_audio_ = true →
      OnData L cJSON_Parse s data true now =
        { s with trace := s.trace ++ [Event.incoming_audio p], last_incoming_time_ := now }) ∧
    (∀ data' : List Byte, decode_frame L s data' ≠ FrameResult.out_of_bounds) := by
  have hon : s.on_incoming_audio_ = true →
      OnData L cJSON_Parse s data true now =
        { s with trace := s.trace ++ [Event.incoming_audio p], last_incoming_time_ := now } := by
    intro ho
    simp [OnData, ho, h]
  have hsafe : ∀ data' : List Byte, decode_frame L s data' ≠ FrameResult.out_of_bounds :=
    fun data' => decode_frame_ne_out_of_bounds L s data'
  by_cases h2 : s.version_ = 2
  · rw [decode_frame_v2 L s data h2] at h
    split at h
    · cases h
    · split at h
      · cases h
      · rename_i hlen hov
        injection h with h
        subst h
        have hlen' : (List.take (declared_payload_size L 2 data)
            (List.drop L.sizeof2 data)).length = declared_payload_size L 2 data := by
          rw [List.length_take, List.length_drop]
          omega
        have hhs : header_size L s.version_ = L.sizeof2 := by simp [header_size, h2]
        have hdp : declared_payload_size L s.version_ data = declared_payload_size L 2 data := by
          rw [h2]
        rw [hhs, hdp, if_pos h2]
        refine ⟨rfl, rfl, rfl, ?_, ?_, ?_, ?_, hon, hsafe⟩
        · show _ = List.take (List.length _) _
          rw [hlen']
        · show _ + List.length _ ≤ _
          rw [hlen']; omega
        · intro _; exact hlen'
        · intro hne; exact absurd h2 hne
  · by_cases h3 : s.version_ = 3
    · rw [decode_frame_v3 L s data h3] at h
      split at h
      · cases h
      · split at h
        · cases h
        · rename_i hlen hov
          injection h with h
          subst h
          have hlen' : (List.take (declared_payload_size L 3 data)
              (List.drop L.sizeof3 data)).length = declared_payload_size L 3 data := by
            rw [List.length_take, List.length_drop]
            omega
          have hhs : header_size L s.version_ = L.sizeof3 := by simp [header_size, h3]
          have hdp : declared_payload_size L s.version_ data =
              declared_payload_size L 3 data := by
            rw [h3]
          rw [hhs, hdp, if_neg h2]
          refine ⟨rfl, rfl, rfl, ?_, ?_, ?_, ?_, hon, hsafe⟩
          · show _ = List.take (List.length _) _
            rw [hlen']
          · show _ + List.length _ ≤ _
            rw [hlen']; omega
          · intro _; exact hlen'
          · intro _ hne; exact absurd h3 hne
    · rw [decode_frame_v1 L s data h2 h3] at h
      injection h with h
      subst h
      have hhs : header_size L s.version_ = 0 := by simp [header_size, h2, h3]
      rw [hhs, if_neg h2]
      refine ⟨rfl, rfl, rfl, ?_, ?_, ?_, ?_, hon, hsafe⟩
      · simp
      · simp
      · intro hv; rcases hv with hv | hv
        · exact absurd hv h2
        · exact absurd hv h3
      · intro _ _; rfl

/-- Witness of C3: a version-2 frame with timestamp 258 and payload 7, 8, 9. -/
theorem decoded_packet_fields_witness :
    decode_frame layout_12_6 (engine 2) (sample_frame_v2 layout_12_6) =
      FrameResult.packet ⟨24000, 60, 258, [7, 8, 9]⟩ ∧
    (⟨24000, 60, 258, [7, 8, 9]⟩ : AudioStreamPacket).timestamp =
      (if (engine 2).version_ = 2 then header_timestamp layout_12_6 (sample_frame_v2 layout_12_6)
        else 0) ∧
    header_size layout_12_6 (engine 2).version_ + 3 ≤ (sample_frame_v2 layout_12_6).length :=
  have h := decoded_packet_fields layout_12_6 parse_nothing (engine 2)
    (sample_frame_v2 layout_12_6) 5 ⟨24000, 60, 258, [7, 8, 9]⟩ (by decide)
  ⟨by decide, h.2.2.1, h.2.2.2.2.1⟩

/-! ## The binary frame codec: outbound frames -/

theorem zeros_add (a b : Nat) : zeros (a + b) = zeros a ++ zeros b :=
  List.replicate_add a b 0

theorem length_htons (x : Nat) : (htons x).length = 2 := rfl

theorem length_htonl (x : Nat) : (htonl x).length = 4 := rfl

theorem length_zeros (n : Nat) : (zeros n).length = n := by simp [zeros]

/-- Storing over the middle one of three segments replaces that segment. -/
theorem store_at (pre mid suf bs : List Byte) (off : Nat) (hoff : off = pre.length)
    (h : bs.length = mid.length) :
    store (pre ++ (mid ++ suf)) off bs = some (pre ++ (bs ++ suf)) := by
  subst hoff
  unfold store
  have hle : pre.length + bs.length ≤ (pre ++ (mid ++ suf)).length := by
    simp only [List.length_append]; omega
  rw [if_pos hle, List.take_left' rfl, ← List.append_assoc pre mid suf,
    List.drop_left' (by simp only [List.length_append]; omega), List.append_assoc]

theorem serialize2_eq (L : HeaderLayout) (version_ : Int) (packet : AudioStreamPacket) :
    serialize2 L version_ packet =
      some (htons (version_ % 2 ^ 16).toNat ++ (zeros 2 ++ (zeros L.v2_reserved ++
        (htonl packet.timestamp ++ (htonl packet.payload.length ++ packet.payload))))) := by
  unfold serialize2
  simp only [HeaderLayout.sizeof2, HeaderLayout.off2_version, HeaderLayout.off2_type,
    HeaderLayout.off2_reserved, HeaderLayout.off2_timestamp, HeaderLayout.off2_payload_size,
    zeros_add]
  generalize (version_ % 2 ^ 16).toNat = v
  generalize L.v2_reserved = r
  generalize packet.timestamp = ts
  generalize packet.payload = payload
  have e1 := store_at [] (zeros 2)
    (zeros 2 ++ (zeros r ++ (zeros 4 ++ (zeros 4 ++ zeros payload.length)))) (htons v) 0 rfl rfl
  have e2 := store_at (htons v) (zeros 2)
    (zeros r ++ (zeros 4 ++ (zeros 4 ++ zeros payload.length))) (zeros 2) 2 rfl rfl
  have e3 := store_at (htons v ++ zeros 2) (zeros r)
    (zeros 4 ++ (zeros 4 ++ zeros payload.length)) (zeros r) 4 rfl rfl
  have e4 := store_at (htons v ++ (zeros 2 ++ zeros r)) (zeros 4)
    (zeros 4 ++ zeros payload.length) (htonl ts) (4 + r)
    (by simp only [List.length_append, length_htons, length_zeros]; omega) rfl
  have e5 := store_at (htons v ++ (zeros 2 ++ (zeros r ++ htonl ts))) (zeros 4)
    (zeros payload.length) (htonl payload.length) (4 + r + 4)
    (by simp only [List.length_append, length_htons, length_zeros, length_htonl]; omega) rfl
  have e6 := store_at (htons v ++ (zeros 2 ++ (zeros r ++ (htonl ts ++ htonl payload.length))))
    (zeros payload.length) [] payload (2 + 2 + r + 4 + 4)
    (by simp only [List.length_append, length_htons, length_zeros, length_htonl]; omega)
    (by rw [length_zeros])
  simp only [List.nil_append, List.append_nil, List.append_assoc] at e1 e2 e3 e4 e5 e6 ⊢
  rw [e1]
  simp only [Option.bind_eq_bind, Option.some_bind]
  rw [e2]
  simp only [Option.some_bind]
  rw [e3]
  simp only [Option.some_bind]
  rw [e4]
  simp only [Option.some_bind]
  rw [e5]
  simp only [Option.some_bind]
  rw [e6]

theorem serialize3_eq (L : HeaderLayout) (packet : AudioStreamPacket) :
    serialize3 L packet =
      some (zeros L.v3_type ++ (zeros L.v3_reserved ++
        (htons packet.payload.length ++ packet.payload))) := by
  unfold serialize3
  simp only [HeaderLayout.sizeof3, HeaderLayout.off3_type, HeaderLayout.off3_reserved,
    HeaderLayout.off3_payload_size, zeros_add]
  generalize L.v3_type = t
  generalize L.v3_reserved = r
  generalize packet.payload = payload
  have e1 := store_at [] (zeros t) (zeros r ++ (zeros 2 ++ zeros payload.length)) (zeros t) 0
    rfl rfl
  have e2 := store_at (zeros t) (zeros r) (zeros 2 ++ zeros payload.length) (zeros r) t
    (by rw [length_zeros]) rfl
  have e3 := store_at (zeros t ++ zeros r) (zeros 2) (zeros payload.length)
    (htons payload.length) (t + r)
    (by simp only [List.length_append, length_zeros]) rfl
  have e4 := store_at (zeros t ++ (zeros r ++ htons payload.length)) (zeros payload.length) []
    payload (t + r + 2)
    (by simp only [List.length_append, length_htons, length_zeros]; omega)
    (by rw [length_zeros])
  simp only [List.nil_append, List.append_nil, List.append_assoc] at e1 e2 e3 e4 ⊢
  rw [e1]
  simp only [Option.bind_eq_bind, Option.some_bind]
  rw [e2]
  simp only [Option.some_bind]
  rw [e3]
  simp only [Option.some_bind]
  rw [e4]

theorem big_endian_zero (w : Nat) : big_endian w 0 = zeros w := by
  induction w with
  | zero => rfl
  | succ n ih =>
    simp only [big_endian, Nat.zero_div, ih]
    show zeros n ++ zeros 1 = zeros (n + 1)
    rw [zeros_add]

theorem length_big_endian (w x : Nat) : (big_endian w x).length = w := by
  induction w generalizing x with
  | zero => rfl
  | succ n ih => simp [big_endian, ih]

theorem byteOf_congr (a b : Nat) (h : a % 256 = b % 256) : byteOf a = byteOf b :=
  Fin.ext h

theorem htons_eq_big_endian (x : Nat) : htons x = big_endian 2 x := by
  simp only [htons, big_endian, List.nil_append, List.cons_append, Nat.reducePow]
  rw [byteOf_congr (x % 65536 / 256) (x / 256) (by omega),
    byteOf_congr (x % 65536) x (by omega)]

theorem htonl_eq_big_endian (x : Nat) : htonl x = big_endian 4 x := by
  simp only [htonl, big_endian, List.nil_append, List.cons_append, Nat.reducePow]
  rw [byteOf_congr (x % 4294967296 / 16777216) (x / 256 / 256 / 256) (by omega),
    byteOf_congr (x % 4294967296 / 65536) (x / 256 / 256) (by omega),
    byteOf_congr (x % 4294967296 / 256) (x / 256) (by omega),
    byteOf_congr (x % 4294967296) x (by omega)]

/-- The frame `SendAudio` builds when the transport is connected. -/
theorem SendAudio_frame_connected (L : HeaderLayout) (s : WebsocketProtocol)
    (packet : AudioStreamPacket) (hws : s.websocket_ = some { is_connected := true }) :
    SendAudio_frame L s packet = some (reference_encoding L s.version_ packet) := by
  unfold SendAudio_frame reference_encoding
  rw [hws]
  simp only [Bool.not_true, Bool.false_eq_true, if_false]
  by_cases h2 : s.version_ = 2
  · rw [if_pos h2, if_pos h2, serialize2_eq, h2]
    have hv : ((2 : Int) % 2 ^ 16).toNat = 2 := by decide
    rw [hv, ← htons_eq_big_endian, ← htonl_eq_big_endian, ← htonl_eq_big_endian,
      big_endian_zero, big_endian_zero]
    simp only [List.append_assoc]
  · rw [if_neg h2, if_neg h2]
    by_cases h3 : s.version_ = 3
    · rw [if_pos h3, if_pos h3, serialize3_eq, ← htons_eq_big_endian, big_endian_zero,
        big_endian_zero]
      simp only [List.append_assoc]
    · rw [if_neg h3, if_neg h3]

theorem length_reference_encoding (L : HeaderLayout) (version : Int)
    (packet : AudioStreamPacket) :
    (reference_encoding L version packet).length =
      header_size L version + packet.payload.length := by
  unfold reference_encoding header_size
  split
  · simp only [List.length_append, length_big_endian, HeaderLayout.sizeof2]
  · split
    · simp only [List.length_append, length_big_endian, HeaderLayout.sizeof3]
    · simp

/-- C5, as stated, fails whatever the header declarations are: the five
version-2 fields the claim lists take 14 bytes, so for no header layout are the
bytes `SendAudio` sends both the listed encoding and 12 bytes longer than the
payload. With a 12-byte header the bytes are not the listed encoding; with the
listed fields the output is 14 bytes longer than the payload. -/
theorem SendAudio_v2_header_size_counterexample :
    (¬ ∃ L : HeaderLayout,
      SendAudio_frame L (connected_engine 2) sample_packet =
        some (listed_encoding 2 sample_packet) ∧
      (SendAudio_frame L (connected_engine 2) sample_packet).map List.length =
        some (12 + sample_packet.payload.length)) ∧
    ((SendAudio_frame layout_12_6 (connected_engine 2) sample_packet).map List.length =
        some (12 + sample_packet.payload.length) ∧
      SendAudio_frame layout_12_6 (connected_engine 2) sample_packet ≠
        some (listed_encoding 2 sample_packet)) ∧
    (SendAudio_frame layout_14_6 (connected_engine 2) sample_packet =
        some (listed_encoding 2 sample_packet) ∧
      (SendAudio_frame layout_14_6 (connected_engine 2) sample_packet).map List.length =
        some (14 + sample_packet.payload.length)) := by
  refine ⟨?_, by decide, by decide⟩
  rintro ⟨L, h1, h2⟩
  rw [h1] at h2
  exact absurd h2 (by decide)

/-- C5, amended: for every header layout, whenever the transport is connected
the bytes `SendAudio` hands to it are the reference encoding (payload verbatim
under version 1; the header fields in network byte order followed by the
payload under versions 2 and 3), and nothing is sent otherwise. The output
length is the header size plus the payload length, where the header size is
the sum of the field widths: 0 without header, 12 bytes plus the width of
`reserved` under version 2, 2 bytes plus the widths of `type` and `reserved`
under version 3. -/
theorem SendAudio_reference_encoding (L : HeaderLayout) (s : WebsocketProtocol)
    (packet : AudioStreamPacket) (send_ok : Bool) :
    SendAudio_frame L s packet =
      (match s.websocket_ with
        | some ws =>
          if ws.is_connected then some (reference_encoding L s.version_ packet) else none
        | none => none) ∧
    SendAudio L s packet send_ok =
      (match s.websocket_ with
        | some ws =>
          if ws.is_connected then
            (send_ok, { s with trace := s.trace ++
              [Event.send_binary (reference_encoding L s.version_ packet)] })
          else (false, s)
        | none => (false, s)) ∧
    (reference_encoding L s.version_ packet).length =
      header_size L s.version_ + packet.payload.length ∧
    header_size L 1 = 0 ∧ header_size L 2 = 12 + L.v2_reserved ∧
    header_size L 3 = 2 + L.v3_type + L.v3_reserved := by
  have hframe : SendAudio_frame L s packet =
      (match s.websocket_ with
        | some ws =>
          if ws.is_connected then some (reference_encoding L s.version_ packet) else none
        | none => none) := by
    cases hw : s.websocket_ with
    | none => simp [SendAudio_frame, hw]
    | some ws =>
      cases ws with
      | mk c =>
        cases c with
        | true => simpa using SendAudio_frame_connected L s packet hw
        | false => simp [SendAudio_frame, hw]
  have hs2 : header_size L 2 = 12 + L.v2_reserved := by
    simp only [header_size, if_true, HeaderLayout.sizeof2]
    omega
  have hs3 : header_size L 3 = 2 + L.v3_type + L.v3_reserved := by
    have h32 : ¬ ((3 : Int) = 2) := by decide
    simp only [header_size, h32, if_true, if_false, HeaderLayout.sizeof3]
    omega
  refine ⟨hframe, ?_, length_reference_encoding L s.version_ packet, by simp [header_size],
    hs2, hs3⟩
  unfold SendAudio
  rw [hframe]
  cases hw : s.websocket_ with
  | none => rfl
  | some ws =>
    cases ws with
    | mk c => cases c <;> rfl

/-! ## Decoding a frame and encoding it again -/

theorem htons_ntoh (bs : List Byte) (h : bs.length = 2) : htons (ntoh bs) = bs := by
  match bs, h with
  | [a, b], _ =>
    have ha := a.isLt
    have hb := b.isLt
    have e2 : byteOf (((0 * 256 + a.val) * 256 + b.val) % 65536 / 256) = a := Fin.ext (by
      show (((0 * 256 + a.val) * 256 + b.val) % 65536 / 256) % 256 = a.val
      omega)
    have e3 : byteOf (((0 * 256 + a.val) * 256 + b.val) % 65536) = b := Fin.ext (by
      show (((0 * 256 + a.val) * 256 + b.val) % 65536) % 256 = b.val
      omega)
    simp only [htons, ntoh, List.foldl, Nat.reducePow]
    rw [e2, e3]

theorem htonl_ntoh (bs : List Byte) (h : bs.length = 4) : htonl (ntoh bs) = bs := by
  match bs, h with
  | [a, b, c, d], _ =>
    have ha := a.isLt
    have hb := b.isLt
    have hc := c.isLt
    have hd := d.isLt
    have e1 : byteOf (((((0 * 256 + a.val) * 256 + b.val) * 256 + c.val) * 256 + d.val) %
        4294967296 / 16777216) = a := Fin.ext (by
      show (((((0 * 256 + a.val) * 256 + b.val) * 256 + c.val) * 256 + d.val) %
        4294967296 / 16777216) % 256 = a.val
      omega)
    have e2 : byteOf (((((0 * 256 + a.val) * 256 + b.val) * 256 + c.val) * 256 + d.val) %
        4294967296 / 65536) = b := Fin.ext (by
      show (((((0 * 256 + a.val) * 256 + b.val) * 256 + c.val) * 256 + d.val) %
        4294967296 / 65536) % 256 = b.val
      omega)
    have e3 : byteOf (((((0 * 256 + a.val) * 256 + b.val) * 256 + c.val) * 256 + d.val) %
        4294967296 / 256) = c := Fin.ext (by
      show (((((0 * 256 + a.val) * 256 + b.val) * 256 + c.val) * 256 + d.val) %
        4294967296 / 256) % 256 = c.val
      omega)
    have e4 : byteOf (((((0 * 256 + a.val) * 256 + b.val) * 256 + c.val) * 256 + d.val) %
        4294967296) = d := Fin.ext (by
      show (((((0 * 256 + a.val) * 256 + b.val) * 256 + c.val) * 256 + d.val) %
        4294967296) % 256 = d.val
      omega)
    simp only [htonl, ntoh, List.foldl, Nat.reducePow]
    rw [e1, e2, e3, e4]

/-- A buffer from offset `off` on is its next `n` bytes followed by the rest. -/
theorem drop_split (data : List Byte) (off n : Nat) :
    data.drop off = (data.drop off).take n ++ data.drop (off + n) := by
  have h := (List.take_append_drop n (data.drop off)).symm
  rw [List.drop_drop] at h
  exact h

theorem take_of_load {data bs : List Byte} {off n : Nat} (h : load data off n = some bs) :
    (data.drop off).take n = bs := by
  unfold load at h
  split at h
  · injection h
  · cases h

theorem reencode_v2 (L : HeaderLayout) (data : List Byte) (hlen : L.sizeof2 ≤ data.length)
    (hsize : declared_payload_size L 2 data = data.length - L.sizeof2)
    (hcanon : canonical_header L 2 data) :
    htons 2 ++ (zeros 2 ++ (zeros L.v2_reserved ++ (htonl (header_timestamp L data) ++
      (htonl (data.drop L.sizeof2).length ++ data.drop L.sizeof2)))) = data := by
  obtain ⟨hver, htype, hres⟩ := hcanon.1 rfl
  have hver := take_of_load hver
  have htype := take_of_load htype
  have hres := take_of_load hres
  simp only [HeaderLayout.off2_version, HeaderLayout.off2_type, HeaderLayout.off2_reserved]
    at hver htype hres
  have hsz : L.sizeof2 = 4 + L.v2_reserved + 4 + 4 := by
    unfold HeaderLayout.sizeof2
    omega
  have hts : htonl (header_timestamp L data) = (data.drop (4 + L.v2_reserved)).take 4 := by
    unfold header_timestamp
    apply htonl_ntoh
    rw [List.length_take, List.length_drop, HeaderLayout.off2_timestamp]
    omega
  have hps : htonl (data.drop L.sizeof2).length =
      (data.drop (4 + L.v2_reserved + 4)).take 4 := by
    rw [List.length_drop, ← hsize]
    simp only [declared_payload_size, if_true, HeaderLayout.off2_payload_size]
    apply htonl_ntoh
    rw [List.length_take, List.length_drop]
    omega
  rw [hts, hps, ← hver, ← htype, ← hres, hsz]
  have s0 := drop_split data 0 2
  have s1 := drop_split data 2 2
  have s2 := drop_split data 4 L.v2_reserved
  have s3 := drop_split data (4 + L.v2_reserved) 4
  have s4 := drop_split data (4 + L.v2_reserved + 4) 4
  rw [← s4, ← s3, ← s2]
  simp only [Nat.zero_add, List.drop_zero] at s0 s1 ⊢
  rw [← s1, ← s0]

theorem reencode_v3 (L : HeaderLayout) (data : List Byte) (hlen : L.sizeof3 ≤ data.length)
    (hsize : declared_payload_size L 3 data = data.length - L.sizeof3)
    (hcanon : canonical_header L 3 data) :
    zeros L.v3_type ++ (zeros L.v3_reserved ++
      (htons (data.drop L.sizeof3).length ++ data.drop L.sizeof3)) = data := by
  obtain ⟨htype, hres⟩ := hcanon.2 rfl
  have htype := take_of_load htype
  have hres := take_of_load hres
  simp only [HeaderLayout.off3_type, HeaderLayout.off3_reserved] at htype hres
  have hsz : L.sizeof3 = L.v3_type + L.v3_reserved + 2 := rfl
  have h32 : ¬ ((3 : Int) = 2) := by decide
  have hps : htons (data.drop L.sizeof3).length =
      (data.drop (L.v3_type + L.v3_reserved)).take 2 := by
    rw [List.length_drop, ← hsize]
    simp only [declared_payload_size, h32, if_true, if_false, HeaderLayout.off3_payload_size]
    apply htons_ntoh
    rw [List.length_take, List.length_drop]
    omega
  rw [hps, ← htype, ← hres, hsz]
  have s0 := drop_split data 0 L.v3_type
  have s1 := drop_split data L.v3_type L.v3_reserved
  have s2 := drop_split data (L.v3_type + L.v3_reserved) 2
  rw [← s2, ← s1]
  simp only [Nat.zero_add, List.drop_zero] at s0 ⊢
  rw [← s0]

/-- C4, as stated, fails: a valid version-2 frame whose `type` field holds 1
decodes to a packet that `SendAudio` encodes with `type` 0, and a valid frame
followed by a byte its header does not declare is encoded without that byte;
under a 12-byte header as under the 14-byte header of the listed fields. -/
theorem decode_then_encode_counterexample :
    (header_size layout_12_6 2 ≤ (frame_with_type_1 layout_12_6).length ∧
      declared_payload_size layout_12_6 2 (frame_with_type_1 layout_12_6) ≤
        (frame_with_type_1 layout_12_6).length - header_size layout_12_6 2 ∧
      decode_frame layout_12_6 (connected_engine 2) (frame_with_type_1 layout_12_6) =
        FrameResult.packet ⟨24000, 60, 0, []⟩ ∧
      SendAudio_frame layout_12_6 (connected_engine 2) ⟨24000, 60, 0, []⟩ ≠
        some (frame_with_type_1 layout_12_6)) ∧
    (header_size layout_12_6 2 ≤ (frame_with_trailing_byte layout_12_6).length ∧
      declared_payload_size layout_12_6 2 (frame_with_trailing_byte layout_12_6) ≤
        (frame_with_trailing_byte layout_12_6).length - header_size layout_12_6 2 ∧
      decode_frame layout_12_6 (connected_engine 2) (frame_with_trailing_byte layout_12_6) =
        FrameResult.packet ⟨24000, 60, 0, []⟩ ∧
      SendAudio_frame layout_12_6 (connected_engine 2) ⟨24000, 60, 0, []⟩ ≠
        some (frame_with_trailing_byte layout_12_6)) ∧
    (header_size layout_14_6 2 ≤ (frame_with_type_1 layout_14_6).length ∧
      declared_payload_size layout_14_6 2 (frame_with_type_1 layout_14_6) ≤
        (frame_with_type_1 layout_14_6).length - header_size layout_14_6 2 ∧
      decode_frame layout_14_6 (connected_engine 2) (frame_with_type_1 layout_14_6) =
        FrameResult.packet ⟨24000, 60, 0, []⟩ ∧
      SendAudio_frame layout_14_6 (connected_engine 2) ⟨24000, 60, 0, []⟩ ≠
        some (frame_with_type_1 layout_14_6)) ∧
    (header_size layout_14_6 2 ≤ (frame_with_trailing_byte layout_14_6).length ∧
      declared_payload_size layout_14_6 2 (frame_with_trailing_byte layout_14_6) ≤
        (frame_with_trailing_byte layout_14_6).length - header_size layout_14_6 2 ∧
      decode_frame layout_14_6 (connected_engine 2) (frame_with_trailing_byte layout_14_6) =
        FrameResult.packet ⟨24000, 60, 0, []⟩ ∧
      SendAudio_frame layout_14_6 (connected_engine 2) ⟨24000, 60, 0, []⟩ ≠
        some (frame_with_trailing_byte layout_14_6)) := by
  decide

/-- C4, amended: under wire version 2 (resp. 3), with the transport connected,
a frame that is at least as long as the header, whose declared payload size is
exactly the number of bytes after the header and whose header is the one
`SendAudio` writes (`version` = 2 under version 2, `type` = 0, `reserved` = 0)
decodes to a packet, and `SendAudio` encodes that packet to exactly the original
bytes. -/
theorem decode_then_encode_canonical (L : HeaderLayout) (s : WebsocketProtocol)
    (data : List Byte) (hv : s.version_ = 2 ∨ s.version_ = 3)
    (hws : s.websocket_ = some { is_connected := true })
    (hlen : header_size L s.version_ ≤ data.length)
    (hsize : declared_payload_size L s.version_ data = data.length - header_size L s.version_)
    (hcanon : canonical_header L s.version_ data) :
    ∃ p : AudioStreamPacket,
      decode_frame L s data = FrameResult.packet p ∧
      SendAudio_frame L s p = some data ∧
      ∀ send_ok : Bool, SendAudio L s p send_ok =
        (send_ok, { s with trace := s.trace ++ [Event.send_binary data] }) := by
  have hsend : ∀ p : AudioStreamPacket, SendAudio_frame L s p = some data →
      ∀ send_ok : Bool, SendAudio L s p send_ok =
        (send_ok, { s with trace := s.trace ++ [Event.send_binary data] }) := by
    intro p hp send_ok
    simp [SendAudio, hp]
  rcases hv with h2 | h3
  · have hhs : header_size L s.version_ = L.sizeof2 := by simp [header_size, h2]
    rw [hhs] at hlen hsize
    rw [h2] at hsize hcanon
    have hdec := decode_frame_v2 L s data h2
    rw [if_neg (by omega), if_neg (by omega)] at hdec
    have hpay : List.take (declared_payload_size L 2 data) (List.drop L.sizeof2 data) =
        List.drop L.sizeof2 data := by
      apply List.take_of_length_le
      rw [List.length_drop]; omega
    rw [hpay] at hdec
    have henc : SendAudio_frame L s
        { sample_rate := s.server_sample_rate_, frame_duration := s.server_frame_duration_,
          timestamp := header_timestamp L data, payload := List.drop L.sizeof2 data } =
        some data := by
      unfold SendAudio_frame
      rw [hws]
      simp only [Bool.not_true, Bool.false_eq_true, if_false]
      rw [if_pos h2, serialize2_eq, h2]
      have hv : ((2 : Int) % 2 ^ 16).toNat = 2 := by decide
      rw [hv]
      exact congrArg some (reencode_v2 L data hlen hsize hcanon)
    exact ⟨_, hdec, henc, hsend _ henc⟩
  · have hhs : header_size L s.version_ = L.sizeof3 := by simp [header_size, h3]
    have h32 : ¬ ((3 : Int) = 2) := by decide
    have hn2 : s.version_ ≠ 2 := by rw [h3]; exact h32
    rw [hhs] at hlen hsize
    rw [h3] at hsize hcanon
    have hdec := decode_frame_v3 L s data h3
    rw [if_neg (by omega), if_neg (by omega)] at hdec
    have hpay : List.take (declared_payload_size L 3 data) (List.drop L.sizeof3 data) =
        List.drop L.sizeof3 data := by
      apply List.take_of_length_le
      rw [List.length_drop]; omega
    rw [hpay] at hdec
    have henc : SendAudio_frame L s
        { sample_rate := s.server_sample_rate_, frame_duration := s.server_frame_duration_,
          timestamp := 0, payload := List.drop L.sizeof3 data } = some data := by
      unfold SendAudio_frame
      rw [hws]
      simp only [Bool.not_true, Bool.false_eq_true, if_false]
      rw [if_neg hn2, if_pos h3, serialize3_eq]
      exact congrArg some (reencode_v3 L data hlen hsize hcanon)
    exact ⟨_, hdec, henc, hsend _ henc⟩

/-- Witness of C4: the sample version-2 frame decodes and encodes back to itself. -/
theorem decode_then_encode_canonical_witness :
    canonical_header layout_12_6 (connected_engine 2).version_ (sample_frame_v2 layout_12_6) ∧
    declared_payload_size layout_12_6 (connected_engine 2).version_
        (sample_frame_v2 layout_12_6) =
      (sample_frame_v2 layout_12_6).length -
        header_size layout_12_6 (connected_engine 2).version_ ∧
    ∃ p : AudioStreamPacket,
      decode_frame layout_12_6 (connected_engine 2) (sample_frame_v2 layout_12_6) =
        FrameResult.packet p ∧
      SendAudio_frame layout_12_6 (connected_engine 2) p = some (sample_frame_v2 layout_12_6) ∧
      ∀ send_ok : Bool, SendAudio layout_12_6 (connected_engine 2) p send_ok =
        (send_ok, { connected_engine 2 with
          trace := (connected_engine 2).trace ++
            [Event.send_binary (sample_frame_v2 layout_12_6)] }) :=
  ⟨by decide, by decide,
    decode_then_encode_canonical layout_12_6 (connected_engine 2) (sample_frame_v2 layout_12_6)
      (by decide) rfl (by decide) (by decide) (by decide)⟩

/-! ## The handshake negotiator -/

theorem accepted_value_range (item : Option cJSON) (lo hi current : Int)
    (h : lo ≤ current ∧ current ≤ hi) :
    lo ≤ accepted_value item lo hi current ∧ accepted_value item lo hi current ≤ hi := by
  unfold accepted_value
  split
  · split
    · rename_i hin; exact hin
    · exact h
  · exact h

theorem accepted_value_out_of_range (lo hi current value : Int)
    (hout : ¬ (lo ≤ value ∧ value ≤ hi)) :
    accepted_value (some (cJSON.number value)) lo hi current = current := by
  simp only [accepted_value, ge_iff_le]
  rw [if_neg hout]

theorem accepted_value_idem (item : Option cJSON) (lo hi current : Int) :
    accepted_value item lo hi (accepted_value item lo hi current) =
      accepted_value item lo hi current := by
  cases item with
  | none => rfl
  | some j =>
    cases j <;> try rfl
    simp only [accepted_value]
    split <;> rfl

theorem accepted_session_id_idem (item : Option cJSON) (current : String) :
    accepted_session_id item (accepted_session_id item current) =
      accepted_session_id item current := by
  cases item with
  | none => rfl
  | some j => cases j <;> rfl

/-- The engine after a server hello with an accepted transport. -/
theorem ParseServerHello_accepted (s : WebsocketProtocol) (root : cJSON)
    (ht : cJSON_GetObjectItem (some root) "transport" = some (cJSON.string "websocket")) :
    ParseServerHello s root =
      { s with
        session_id_ :=
          accepted_session_id (cJSON_GetObjectItem (some root) "session_id") s.session_id_
        server_sample_rate_ :=
          accepted_value
            (cJSON_GetObjectItem (cJSON_GetObjectItem (some root) "audio_params") "sample_rate")
            8000 48000 s.server_sample_rate_
        server_frame_duration_ :=
          accepted_value
            (cJSON_GetObjectItem (cJSON_GetObjectItem (some root) "audio_params")
              "frame_duration")
            10 120 s.server_frame_duration_
        server_hello_event := true } := by
  have hobj : ∀ (item : Option cJSON) (name : String), cJSON_IsObject item = false →
      cJSON_GetObjectItem item name = none := by
    intro item name h
    unfold cJSON_GetObjectItem
    split
    · simp [cJSON_IsObject] at h
    · rfl
  unfold ParseServerHello accepted_value accepted_session_id
  rw [ht]
  simp only [ne_eq, not_true_eq_false, if_false]
  generalize cJSON_GetObjectItem (some root) "session_id" = sid
  generalize cJSON_GetObjectItem (some root) "audio_params" = ap
  cases hap : cJSON_IsObject ap with
  | false =>
    rw [hobj ap _ hap, hobj ap _ hap]
    simp only [Bool.false_eq_true, if_false]
    split <;> rfl
  | true =>
    simp only [if_true]
    generalize cJSON_GetObjectItem ap "sample_rate" = sr
    generalize cJSON_GetObjectItem ap "frame_duration" = fd
    split <;> split <;> split <;> (try split) <;> (try split) <;> rfl

/-- The engine after a server hello whose transport is not accepted. -/
theorem ParseServerHello_rejected (s : WebsocketProtocol) (root : cJSON)
    (ht : cJSON_GetObjectItem (some root) "transport" ≠ some (cJSON.string "websocket")) :
    ParseServerHello s root = s := by
  unfold ParseServerHello
  split
  · rename_i transport heq
    by_cases hw : transport = "websocket"
    · rw [hw] at heq
      exact absurd heq ht
    · rw [if_pos hw]
  · rfl

/-- C6: if the negotiated sample rate is in [8000,48000] and the negotiated
frame duration in [10,120] before `ParseServerHello`, they are after it; a
supplied `audio_params.sample_rate` outside [8000,48000] leaves the sample rate
unchanged and a supplied `audio_params.frame_duration` outside [10,120] leaves
the frame duration unchanged. -/
theorem ParseServerHello_ranges (s : WebsocketProtocol) (root : cJSON)
    (hsr : 8000 ≤ s.server_sample_rate_ ∧ s.server_sample_rate_ ≤ 48000)
    (hfd : 10 ≤ s.server_frame_duration_ ∧ s.server_frame_duration_ ≤ 120) :
    (8000 ≤ (ParseServerHello s root).server_sample_rate_ ∧
      (ParseServerHello s root).server_sample_rate_ ≤ 48000) ∧
    (10 ≤ (ParseServerHello s root).server_frame_duration_ ∧
      (ParseServerHello s root).server_frame_duration_ ≤ 120) ∧
    (∀ rate : Int,
      cJSON_GetObjectItem (cJSON_GetObjectItem (some root) "audio_params") "sample_rate" =
        some (cJSON.number rate) →
      ¬ (8000 ≤ rate ∧ rate ≤ 48000) →
      (ParseServerHello s root).server_sample_rate_ = s.server_sample_rate_) ∧
    (∀ duration : Int,
      cJSON_GetObjectItem (cJSON_GetObjectItem (some root) "audio_params") "frame_duration" =
        some (cJSON.number duration) →
      ¬ (10 ≤ duration ∧ duration ≤ 120) →
      (ParseServerHello s root).server_frame_duration_ = s.server_frame_duration_) := by
  by_cases ht : cJSON_GetObjectItem (some root) "transport" = some (cJSON.string "websocket")
  · rw [ParseServerHello_accepted s root ht]
    refine ⟨accepted_value_range _ 8000 48000 _ hsr, accepted_value_range _ 10 120 _ hfd, ?_, ?_⟩
    · intro rate hrate hout
      show accepted_value _ 8000 48000 _ = _
      rw [hrate]
      exact accepted_value_out_of_range 8000 48000 _ rate hout
    · intro duration hduration hout
      show accepted_value _ 10 120 _ = _
      rw [hduration]
      exact accepted_value_out_of_range 10 120 _ duration hout
  · rw [ParseServerHello_rejected s root ht]
    exact ⟨hsr, hfd, fun _ _ _ => rfl, fun _ _ _ => rfl⟩

/-- Witness of C6: a hello offering 96000 Hz and 5 ms leaves 24000 Hz and 60 ms. -/
theorem ParseServerHello_ranges_witness :
    (ParseServerHello (engine 1) out_of_range_hello).server_sample_rate_ = 24000 ∧
    (ParseServerHello (engine 1) out_of_range_hello).server_frame_duration_ = 60 :=
  have h := ParseServerHello_ranges (engine 1) out_of_range_hello (by decide) (by decide)
  ⟨h.2.2.1 96000 rfl (by decide), h.2.2.2 5 rfl (by decide)⟩

/-- C7: a server hello whose `transport` is absent, is not a string, or is a
string other than "websocket" leaves the engine as it was: session id,
negotiated sample rate and frame duration keep their values whatever
`session_id` and `audio_params` the message carries, and the server-hello
event bit is not set by the call. -/
theorem ParseServerHello_unsupported_transport (s : WebsocketProtocol) (root : cJSON)
    (ht : cJSON_GetObjectItem (some root) "transport" = none ∨
      cJSON_IsString (cJSON_GetObjectItem (some root) "transport") = false ∨
      ∃ v : String, cJSON_GetObjectItem (some root) "transport" = some (cJSON.string v) ∧
        v ≠ "websocket") :
    ParseServerHello s root = s ∧
    (ParseServerHello s root).session_id_ = s.session_id_ ∧
    (ParseServerHello s root).server_sample_rate_ = s.server_sample_rate_ ∧
    (ParseServerHello s root).server_frame_duration_ = s.server_frame_duration_ ∧
    (ParseServerHello s root).server_hello_event = s.server_hello_event := by
  have hne : cJSON_GetObjectItem (some root) "transport" ≠ some (cJSON.string "websocket") := by
    intro heq
    rcases ht with h | h | ⟨v, h, hv⟩
    · rw [heq] at h; cases h
    · rw [heq] at h; simp [cJSON_IsString] at h
    · rw [heq] at h
      injection h with h
      injection h with h
      exact hv h.symm
  have h := ParseServerHello_rejected s root hne
  rw [h]
  exact ⟨rfl, rfl, rfl, rfl, rfl⟩

/-- Witness of C7: a hello for transport "mqtt" that carries a session id and
audio parameters changes nothing. -/
theorem ParseServerHello_unsupported_transport_witness :
    (∃ v : String, cJSON_GetObjectItem (some mqtt_hello) "transport" = some (cJSON.string v) ∧
      v ≠ "websocket") ∧
    ParseServerHello (engine 1) mqtt_hello = engine 1 :=
  ⟨⟨"mqtt", rfl, by decide⟩,
    (ParseServerHello_unsupported_transport (engine 1) mqtt_hello
      (Or.inr (Or.inr ⟨"mqtt", rfl, by decide⟩))).1⟩

/-- C8: a server hello with an accepted transport sets the session id to its
`session_id` when that member is a string, and otherwise (member missing or not
a string) leaves the session id as it was; applying the same hello twice gives
the same engine as applying it once. -/
theorem ParseServerHello_session_id (s : WebsocketProtocol) (root : cJSON)
    (ht : cJSON_GetObjectItem (some root) "transport" = some (cJSON.string "websocket")) :
    (∀ id : String, cJSON_GetObjectItem (some root) "session_id" = some (cJSON.string id) →
      (ParseServerHello s root).session_id_ = id) ∧
    (cJSON_IsString (cJSON_GetObjectItem (some root) "session_id") = false →
      (ParseServerHello s root).session_id_ = s.session_id_) ∧
    ParseServerHello (ParseServerHello s root) root = ParseServerHello s root := by
  refine ⟨?_, ?_, ?_⟩
  · intro id hid
    rw [ParseServerHello_accepted s root ht, hid]
    rfl
  · intro hns
    rw [ParseServerHello_accepted s root ht]
    show accepted_session_id _ _ = _
    unfold accepted_session_id
    split
    · rename_i heq
      rw [heq] at hns
      simp [cJSON_IsString] at hns
    · rfl
  · rw [ParseServerHello_accepted (ParseServerHello s root) root ht,
      ParseServerHello_accepted s root ht]
    simp only [accepted_value_idem, accepted_session_id_idem]

/-- Witness of C8: the hello of the scenario sets session id "abc123", and a
hello without session id keeps it. -/
theorem ParseServerHello_session_id_witness :
    (ParseServerHello (engine 1) scenario_hello).session_id_ = "abc123" ∧
    (ParseServerHello (ParseServerHello (engine 1) scenario_hello) out_of_range_hello).session_id_
      = "abc123" ∧
    ParseServerHello (ParseServerHello (engine 1) scenario_hello) scenario_hello =
      ParseServerHello (engine 1) scenario_hello :=
  ⟨(ParseServerHello_session_id (engine 1) scenario_hello rfl).1 "abc123" rfl,
    ((ParseServerHello_session_id (ParseServerHello (engine 1) scenario_hello)
      out_of_range_hello rfl).2.1 rfl).trans
      ((ParseServerHello_session_id (engine 1) scenario_hello rfl).1 "abc123" rfl),
    (ParseServerHello_session_id (engine 1) scenario_hello rfl).2.2⟩

/-- C9: a server hello whose `transport` is the string "websocket" sets the
server-hello event bit, whatever its other members are: with or without
`session_id`, with or without `audio_params`, in range or not. -/
theorem ParseServerHello_signals_completion (s : WebsocketProtocol) (root : cJSON)
    (ht : cJSON_GetObjectItem (some root) "transport" = some (cJSON.string "websocket")) :
    (ParseServerHello s root).server_hello_event = true := by
  rw [ParseServerHello_accepted s root ht]

/-- Witness of C9: a hello with out-of-range audio parameters and no session id
still sets the bit. -/
theorem ParseServerHello_signals_completion_witness :
    (engine 1).server_hello_event = false ∧
    (ParseServerHello (engine 1) out_of_range_hello).server_hello_event = true :=
  ⟨rfl, ParseServerHello_signals_completion (engine 1) out_of_range_hello rfl⟩

/-! ## The connection lifecycle -/

theorem TryConnect_retry_count (s : WebsocketProtocol) (e : ConnectEnv) :
    (TryConnect s e).2.connect_retry_count_ = s.connect_retry_count_ := by
  unfold TryConnect SetError
  simp only
  repeat' split
  all_goals rfl

/-- One round of the retry loop whose attempt fails. -/
theorem connect_loop_failed_attempt (attempts : Nat → ConnectEnv) (s : WebsocketProtocol)
    (hlt : s.connect_retry_count_ < WEBSOCKET_MAX_CONNECT_RETRIES)
    (hfail : (TryConnect s (attempts s.connect_retry_count_.toNat)).1 = false) :
    connect_loop attempts s =
      connect_loop attempts (failed_round (attempts s.connect_retry_count_.toNat) s) := by
  rw [connect_loop]
  simp only [hlt, if_true, hfail, Bool.false_eq_true, if_false, TryConnect_retry_count,
    failed_round]

theorem failed_round_retry_count (e : ConnectEnv) (s : WebsocketProtocol) :
    (failed_round e s).connect_retry_count_ = s.connect_retry_count_ + 1 := by
  unfold failed_round
  simp only
  split <;> rfl

theorem connect_loop_done (attempts : Nat → ConnectEnv) (s : WebsocketProtocol)
    (hge : ¬ s.connect_retry_count_ < WEBSOCKET_MAX_CONNECT_RETRIES) :
    connect_loop attempts s = s := by
  rw [connect_loop]
  simp only [hge, if_false]

theorem connect_loop_connected (attempts : Nat → ConnectEnv) (s : WebsocketProtocol)
    (hlt : s.connect_retry_count_ < WEBSOCKET_MAX_CONNECT_RETRIES)
    (hok : (TryConnect s (attempts s.connect_retry_count_.toNat)).1 = true) :
    connect_loop attempts s = (TryConnect s (attempts s.connect_retry_count_.toNat)).2 := by
  rw [connect_loop]
  simp only [hlt, if_true, hok]

/-- The retry loop when every attempt fails: three failed rounds, no fourth. -/
theorem connect_loop_all_fail (attempts : Nat → ConnectEnv) (s : WebsocketProtocol)
    (h0 : s.connect_retry_count_ = 0)
    (hfail : ∀ (i : Nat) (s' : WebsocketProtocol), (TryConnect s' (attempts i)).1 = false) :
    connect_loop attempts s =
      failed_round (attempts 2) (failed_round (attempts 1) (failed_round (attempts 0) s)) := by
  have c1 : (failed_round (attempts 0) s).connect_retry_count_ = 1 := by
    rw [failed_round_retry_count, h0]; rfl
  have c2 : (failed_round (attempts 1) (failed_round (attempts 0) s)).connect_retry_count_
      = 2 := by
    rw [failed_round_retry_count, c1]; rfl
  have c3 : (failed_round (attempts 2) (failed_round (attempts 1)
      (failed_round (attempts 0) s))).connect_retry_count_ = 3 := by
    rw [failed_round_retry_count, c2]; rfl
  have r1 : connect_loop attempts s = connect_loop attempts (failed_round (attempts 0) s) := by
    have h := connect_loop_failed_attempt attempts s (by rw [h0]; decide) (hfail _ _)
    rw [h0] at h
    exact h
  have r2 : connect_loop attempts (failed_round (attempts 0) s) =
      connect_loop attempts (failed_round (attempts 1) (failed_round (attempts 0) s)) := by
    have h := connect_loop_failed_attempt attempts (failed_round (attempts 0) s)
      (by rw [c1]; decide) (hfail _ _)
    rw [c1] at h
    exact h
  have r3 : connect_loop attempts (failed_round (attempts 1) (failed_round (attempts 0) s)) =
      connect_loop attempts
        (failed_round (attempts 2) (failed_round (attempts 1) (failed_round (attempts 0) s))) := by
    have h := connect_loop_failed_attempt attempts
      (failed_round (attempts 1) (failed_round (attempts 0) s)) (by rw [c2]; decide) (hfail _ _)
    rw [c2] at h
    exact h
  rw [r1, r2, r3, connect_loop_done attempts _ (by rw [c3]; decide)]

/-- A failed attempt leaves no handle, or the handle it found. -/
theorem TryConnect_failed_handle (s : WebsocketProtocol) (e : ConnectEnv)
    (hfail : (TryConnect s e).1 = false) :
    (TryConnect s e).2.websocket_ = none ∨ (TryConnect s e).2.websocket_ = s.websocket_ := by
  unfold TryConnect SetError at hfail ⊢
  simp only at hfail ⊢
  repeat' split
  all_goals first
    | (left; rfl)
    | (right; rfl)
    | (exfalso; simp_all)

theorem failed_round_handle (e : ConnectEnv) (s : WebsocketProtocol)
    (hfail : (TryConnect s e).1 = false) (hnone : s.websocket_ = none) :
    (failed_round e s).websocket_ = none := by
  have h : (failed_round e s).websocket_ = (TryConnect s e).2.websocket_ := by
    unfold failed_round
    simp only
    split <;> rfl
  rw [h]
  rcases TryConnect_failed_handle s e hfail with h1 | h1
  · exact h1
  · rw [h1, hnone]

/-- When every attempt fails and the engine holds no transport at the call,
`OpenAudioChannel` makes the three failed rounds, then flags the error with
`SERVER_NOT_CONNECTED` and returns `false`, the retry counter being 3. -/
theorem OpenAudioChannel_all_attempts_fail (L : HeaderLayout)
    (cJSON_Parse : List Byte → Option cJSON) (cJSON_PrintUnformatted : cJSON → String)
    (cfg : BuildConfig) (s : WebsocketProtocol) (env : OpenEnv)
    (hfail : ∀ (i : Nat) (s' : WebsocketProtocol), (TryConnect s' (env.attempts i)).1 = false)
    (hnone : s.websocket_ = none) :
    OpenAudioChannel L cJSON_Parse cJSON_PrintUnformatted cfg s env =
      (false, SetError
        (failed_round (env.attempts 2) (failed_round (env.attempts 1)
          (failed_round (env.attempts 0)
            { s with error_occurred_ := false, connect_retry_count_ := 0 })))
        LangString.SERVER_NOT_CONNECTED) ∧
    (OpenAudioChannel L cJSON_Parse cJSON_PrintUnformatted cfg s env).2.connect_retry_count_
      = 3 ∧
    (OpenAudioChannel L cJSON_Parse cJSON_PrintUnformatted cfg s env).2.error_occurred_
      = true := by
  have hloop := connect_loop_all_fail env.attempts
    { s with error_occurred_ := false, connect_retry_count_ := 0 } rfl hfail
  have hws : (failed_round (env.attempts 2) (failed_round (env.attempts 1)
      (failed_round (env.attempts 0)
        { s with error_occurred_ := false, connect_retry_count_ := 0 }))).websocket_ = none :=
    failed_round_handle _ _ (hfail _ _)
      (failed_round_handle _ _ (hfail _ _) (failed_round_handle _ _ (hfail _ _) hnone))
  have hres : OpenAudioChannel L cJSON_Parse cJSON_PrintUnformatted cfg s env =
      (false, SetError
        (failed_round (env.attempts 2) (failed_round (env.attempts 1)
          (failed_round (env.attempts 0)
            { s with error_occurred_ := false, connect_retry_count_ := 0 })))
        LangString.SERVER_NOT_CONNECTED) := by
    unfold OpenAudioChannel
    simp only []
    rw [hloop, hws]
  refine ⟨hres, ?_, ?_⟩
  · rw [hres]
    have hc : ∀ (t : WebsocketProtocol) (m : LangString),
        (SetError t m).connect_retry_count_ = t.connect_retry_count_ := by
      intro t m
      unfold SetError
      simp only
      split <;> rfl
    show (SetError _ _).connect_retry_count_ = 3
    rw [hc, failed_round_retry_count, failed_round_retry_count, failed_round_retry_count]
    rfl
  · rw [hres]
    show (SetError _ _).error_occurred_ = true
    unfold SetError
    simp only
    split <;> rfl

/-- C10 at the failing input: the engine still holds the connected transport
of an earlier call and the configured address is rejected. Every attempt fails
and there are exactly three of them, the error flag and the retry counter were
reset first and end as `true` and 3; but the handle is not null, so the call
sends the client hello over the old transport and, the peer answering, returns
`true` and notifies "channel opened". -/
theorem OpenAudioChannel_stale_handle :
    (∀ (i : Nat) (s : WebsocketProtocol),
      (TryConnect s (rejected_address_env.attempts i)).1 = false) ∧
    (OpenAudioChannel layout_12_6 parse_scenario_hello print_nothing sample_config
      engine_with_stale_handle rejected_address_env).1 = true ∧
    (OpenAudioChannel layout_12_6 parse_scenario_hello print_nothing sample_config
      engine_with_stale_handle rejected_address_env).2.connect_retry_count_ = 3 ∧
    (OpenAudioChannel layout_12_6 parse_scenario_hello print_nothing sample_config
      engine_with_stale_handle rejected_address_env).2.error_occurred_ = true ∧
    (OpenAudioChannel layout_12_6 parse_scenario_hello print_nothing sample_config
      engine_with_stale_handle rejected_address_env).2.trace =
      [Event.network_error LangString.SERVER_NOT_FOUND, Event.task_delay 1000,
       Event.network_error LangString.SERVER_NOT_FOUND, Event.task_delay 1000,
       Event.network_error LangString.SERVER_NOT_FOUND,
       Event.send_text "", Event.audio_channel_opened] := by
  have hfail : ∀ (i : Nat) (s : WebsocketProtocol),
      (TryConnect s (rejected_address_env.attempts i)).1 = false := fun _ _ => rfl
  have h : OpenAudioChannel layout_12_6 parse_scenario_hello print_nothing sample_config
      engine_with_stale_handle rejected_address_env =
      (true,
        { engine_with_stale_handle with
          error_occurred_ := true
          connect_retry_count_ := 3
          session_id_ := "abc123"
          server_sample_rate_ := 24000
          server_frame_duration_ := 40
          last_incoming_time_ := 1
          trace :=
            [Event.network_error LangString.SERVER_NOT_FOUND, Event.task_delay 1000,
             Event.network_error LangString.SERVER_NOT_FOUND, Event.task_delay 1000,
             Event.network_error LangString.SERVER_NOT_FOUND,
             Event.send_text "", Event.audio_channel_opened] }) := by
    unfold OpenAudioChannel
    simp only []
    rw [connect_loop_all_fail _ _ rfl hfail]
    rfl
  rw [h]
  exact ⟨hfail, rfl, rfl, rfl, rfl⟩

/-! ## The reconnect cooldown -/

/-- C16: in every state, calling `ScheduleReconnect` twice in succession with
no timer firing in between leaves the state one call leaves, and the two calls
together start the 30-second one-shot timer at most once. -/
theorem ScheduleReconnect_idempotent (s : WebsocketProtocol) :
    ScheduleReconnect (ScheduleReconnect s) = ScheduleReconnect s ∧
    ((ScheduleReconnect (ScheduleReconnect s)).trace = s.trace ∨
      (ScheduleReconnect (ScheduleReconnect s)).trace =
        s.trace ++ [Event.timer_start_once 30000000]) := by
  have h1 : ScheduleReconnect (ScheduleReconnect s) = ScheduleReconnect s := by
    unfold ScheduleReconnect
    by_cases h : (!s.reconnect_scheduled_) = true ∧
        s.connect_retry_count_ < WEBSOCKET_MAX_CONNECT_RETRIES
    · rw [if_pos h]
      simp
    · rw [if_neg h, if_neg h]
  rw [h1]
  refine ⟨rfl, ?_⟩
  unfold ScheduleReconnect
  split
  · right; rfl
  · left; rfl

/-- C17: `ScheduleReconnect` sets the armed flag and starts the 30-second timer
exactly when the cooldown is not armed and the retry counter is below 3; in
every other state it changes nothing; it never changes the retry counter. The
timer callback clears the armed flag in every state and changes nothing else. -/
theorem ScheduleReconnect_arms_iff (s : WebsocketProtocol) :
    ScheduleReconnect s =
      (if s.reconnect_scheduled_ = false ∧ s.connect_retry_count_ < 3 then
        { s with
          reconnect_scheduled_ := true
          trace := s.trace ++ [Event.timer_start_once 30000000] }
      else s) ∧
    ((ScheduleReconnect s).trace ≠ s.trace ↔
      s.reconnect_scheduled_ = false ∧ s.connect_retry_count_ < 3) ∧
    (ScheduleReconnect s).connect_retry_count_ = s.connect_retry_count_ ∧
    reconnect_timer_callback s = { s with reconnect_scheduled_ := false } ∧
    (reconnect_timer_callback s).reconnect_scheduled_ = false ∧
    (reconnect_timer_callback s).connect_retry_count_ = s.connect_retry_count_ ∧
    (reconnect_timer_callback s).websocket_ = s.websocket_ ∧
    (reconnect_timer_callback s).error_occurred_ = s.error_occurred_ ∧
    (reconnect_timer_callback s).trace = s.trace := by
  have hcond : ((!s.reconnect_scheduled_) = true ∧
      s.connect_retry_count_ < WEBSOCKET_MAX_CONNECT_RETRIES) ↔
      (s.reconnect_scheduled_ = false ∧ s.connect_retry_count_ < 3) := by
    simp [WEBSOCKET_MAX_CONNECT_RETRIES]
  have hne : s.trace ++ [Event.timer_start_once 30000000] ≠ s.trace := by
    intro h
    have hl := congrArg List.length h
    simp at hl
  refine ⟨?_, ?_, ?_, rfl, rfl, rfl, rfl, rfl, rfl⟩
  · unfold ScheduleReconnect
    by_cases h : s.reconnect_scheduled_ = false ∧ s.connect_retry_count_ < 3
    · rw [if_pos (hcond.mpr h), if_pos h]
      rfl
    · rw [if_neg (fun hc => h (hcond.mp hc)), if_neg h]
  · unfold ScheduleReconnect
    by_cases h : s.reconnect_scheduled_ = false ∧ s.connect_retry_count_ < 3
    · rw [if_pos (hcond.mpr h)]
      exact ⟨fun _ => h, fun _ => hne⟩
    · rw [if_neg (fun hc => h (hcond.mp hc))]
      exact ⟨fun hc => absurd rfl hc, fun hc => absurd hc h⟩
  · unfold ScheduleReconnect
    split <;> rfl

/-! ## The scheme policy and the headers of `TryConnect` -/

theorem TryConnect_eq (s : WebsocketProtocol) (e : ConnectEnv) :
    TryConnect s e =
      match checked_address e.url with
      | none =>
        (false, SetError (if e.version ≠ 0 then { s with version_ := e.version } else s)
          LangString.SERVER_NOT_FOUND)
      | some url =>
        let s := if e.version ≠ 0 then { s with version_ := e.version } else s
        let s := { s with trace := s.trace ++ [Event.create_websocket] }
        if !e.create_ok then (false, { s with websocket_ := none })
        else
          let s := { s with websocket_ := some { is_connected := false } }
          let s :=
            if e.token ≠ "" then
              let token := if ' ' ∉ e.token.data then "Bearer " ++ e.token else e.token
              { s with trace := s.trace ++ [Event.set_header "Authorization" token] }
            else s
          let s := { s with trace := s.trace ++
            [Event.set_header "Protocol-Version" (toString s.version_),
             Event.set_header "Device-Id" e.mac_address,
             Event.set_header "Client-Id" e.uuid,
             Event.connect url] }
          if !e.connect_ok then (false, { s with websocket_ := none })
          else (true, { s with websocket_ := some { is_connected := true } }) := by
  rfl

theorem checked_address_ws (rest : String) :
    checked_address ("ws://" ++ rest) = some ("wss://" ++ rest) := by
  have h1 : substr ("ws://" ++ rest) 0 5 = "ws://" := by
    apply String.ext
    simp only [substr, String.data_append, List.drop_zero]
    exact List.take_left' rfl
  have h2 : substr_from ("ws://" ++ rest) 5 = rest := by
    apply String.ext
    simp only [substr_from, String.data_append]
    exact List.drop_left' rfl
  unfold checked_address
  rw [if_pos h1, h2]

theorem checked_address_wss (rest : String) :
    checked_address ("wss://" ++ rest) = some ("wss://" ++ rest) := by
  have h1 : substr ("wss://" ++ rest) 0 5 ≠ "ws://" := by
    intro h
    have hd := congrArg String.data h
    simp only [substr, String.data_append, List.drop_zero] at hd
    have h5 : List.take 5 ("wss://".data ++ rest.data) = "wss:/".data := by
      show List.take 5 (('w' :: 's' :: 's' :: ':' :: '/' :: '/' :: []) ++ rest.data) = _
      rfl
    rw [h5] at hd
    exact absurd hd (by decide)
  have h2 : substr ("wss://" ++ rest) 0 6 = "wss://" := by
    apply String.ext
    simp only [substr, String.data_append, List.drop_zero]
    exact List.take_left' rfl
  unfold checked_address
  rw [if_neg h1, if_neg (not_not.mpr h2)]

theorem checked_address_other (url : String) (hws : ∀ rest : String, url ≠ "ws://" ++ rest)
    (hwss : ∀ rest : String, url ≠ "wss://" ++ rest) : checked_address url = none := by
  have h1 : substr url 0 5 ≠ "ws://" := by
    intro h
    apply hws ⟨url.data.drop 5⟩
    apply String.ext
    have hd := congrArg String.data h
    simp only [substr, List.drop_zero] at hd
    have hd' : "ws://".data = List.take 5 url.data := hd.symm
    rw [String.data_append, hd']
    exact (List.take_append_drop 5 url.data).symm
  have h2 : substr url 0 6 ≠ "wss://" := by
    intro h
    apply hwss ⟨url.data.drop 6⟩
    apply String.ext
    have hd := congrArg String.data h
    simp only [substr, List.drop_zero] at hd
    have hd' : "wss://".data = List.take 6 url.data := hd.symm
    rw [String.data_append, hd']
    exact (List.take_append_drop 6 url.data).symm
  unfold checked_address
  rw [if_neg h1, if_pos h2]

/-- The new events of a `TryConnect` whose address passes the scheme check. -/
theorem TryConnect_accepted_trace (s : WebsocketProtocol) (e : ConnectEnv) (url : String)
    (hchk : checked_address e.url = some url) :
    (TryConnect s e).2.trace =
      s.trace ++ (Event.create_websocket ::
        (if e.create_ok then
          (if e.token = "" then []
            else if ' ' ∈ e.token.data then [Event.set_header "Authorization" e.token]
            else [Event.set_header "Authorization" ("Bearer " ++ e.token)]) ++
          [Event.set_header "Protocol-Version"
              (toString (if e.version ≠ 0 then e.version else s.version_)),
            Event.set_header "Device-Id" e.mac_address,
            Event.set_header "Client-Id" e.uuid,
            Event.connect url]
        else [])) ∧
    (TryConnect s e).1 = (e.create_ok && e.connect_ok) := by
  rw [TryConnect_eq, hchk]
  simp only []
  cases hc : e.create_ok
  · simp only [Bool.not_false, if_true, Bool.false_and, Bool.false_eq_true, if_false]
    split <;> simp
  · simp only [Bool.not_true, Bool.false_eq_true, if_false, if_true, Bool.true_and]
    by_cases ht : e.token = ""
    · simp only [ht, ne_eq, not_true_eq_false, if_false, if_true, List.nil_append]
      by_cases hv : e.version = 0
      · simp only [hv, ne_eq, not_true_eq_false, if_false]
        cases hk : e.connect_ok <;> simp [List.append_assoc]
      · simp only [hv, ne_eq, not_false_eq_true, if_true]
        cases hk : e.connect_ok <;> simp [List.append_assoc]
    · simp only [ht, ne_eq, not_false_eq_true, if_true, if_false]
      by_cases hsp : ' ' ∈ e.token.data
      · simp only [hsp, not_true_eq_false, if_false, if_true]
        by_cases hv : e.version = 0
        · simp only [hv, ne_eq, not_true_eq_false, if_false]
          cases hk : e.connect_ok <;> simp [List.append_assoc]
        · simp only [hv, ne_eq, not_false_eq_true, if_true]
          cases hk : e.connect_ok <;> simp [List.append_assoc]
      · simp only [hsp, not_false_eq_true, if_true, if_false]
        by_cases hv : e.version = 0
        · simp only [hv, ne_eq, not_true_eq_false, if_false]
          cases hk : e.connect_ok <;> simp [List.append_assoc]
        · simp only [hv, ne_eq, not_false_eq_true, if_true]
          cases hk : e.connect_ok <;> simp [List.append_assoc]

theorem connect_calls_append (a b : List Event) :
    connect_calls (a ++ b) = connect_calls a ++ connect_calls b := by
  unfold connect_calls
  exact List.filterMap_append _ _ _

theorem creations_append (a b : List Event) :
    creations (a ++ b) = creations a + creations b := by
  unfold creations
  rw [List.filter_append, List.length_append]

theorem authorization_headers_append (a b : List Event) :
    authorization_headers (a ++ b) = authorization_headers a ++ authorization_headers b := by
  unfold authorization_headers
  exact List.filterMap_append _ _ _

/-- What a `TryConnect` with an accepted address adds to the calls of `Connect`,
to the transport creations and to the `Authorization` headers. -/
theorem TryConnect_accepted_calls (s : WebsocketProtocol) (e : ConnectEnv) (url : String)
    (hchk : checked_address e.url = some url) :
    connect_calls (TryConnect s e).2.trace =
      connect_calls s.trace ++ (if e.create_ok then [url] else []) ∧
    creations (TryConnect s e).2.trace = creations s.trace + 1 ∧
    authorization_headers (TryConnect s e).2.trace =
      authorization_headers s.trace ++
        (if e.create_ok then
          (if e.token = "" then []
            else if ' ' ∈ e.token.data then [e.token]
            else ["Bearer " ++ e.token])
        else []) := by
  rw [(TryConnect_accepted_trace s e url hchk).1, connect_calls_append, creations_append,
    authorization_headers_append]
  cases hc : e.create_ok
  · exact ⟨rfl, rfl, rfl⟩
  · simp only [if_true]
    by_cases ht : e.token = ""
    · simp only [ht, if_true]
      exact ⟨rfl, rfl, rfl⟩
    · simp only [ht, if_false]
      by_cases hsp : ' ' ∈ e.token.data
      · simp only [hsp, if_true]
        exact ⟨rfl, rfl, rfl⟩
      · simp only [hsp, if_false]
        exact ⟨rfl, rfl, rfl⟩

/-- What a `TryConnect` with a rejected address does. -/
theorem TryConnect_rejected_result (s : WebsocketProtocol) (e : ConnectEnv)
    (hchk : checked_address e.url = none) :
    TryConnect s e =
      (false, SetError (if e.version ≠ 0 then { s with version_ := e.version } else s)
        LangString.SERVER_NOT_FOUND) ∧
    (TryConnect s e).2.error_occurred_ = true ∧
    (TryConnect s e).2.websocket_ = s.websocket_ ∧
    (TryConnect s e).2.trace =
      s.trace ++ (if s.on_network_error_ then
        [Event.network_error LangString.SERVER_NOT_FOUND] else []) := by
  rw [TryConnect_eq, hchk]
  simp only []
  unfold SetError
  by_cases hv : e.version = 0 <;> cases ho : s.on_network_error_ <;> simp [hv, ho]

/-- C12: `TryConnect` applies the scheme policy before it creates a transport.
For an address "ws://" ++ rest the address passed to `Connect` is
"wss://" ++ rest; an address "wss://" ++ rest is passed unchanged; in both cases
the call first creates one transport and, if that succeeds, connects once. For
every other address (the empty one and those shorter than the scheme included)
`TryConnect` returns `false` with the error flagged, creates no transport and
makes no `Connect` call. -/
theorem TryConnect_scheme_policy (s : WebsocketProtocol) (e : ConnectEnv) :
    (∀ rest : String, e.url = "ws://" ++ rest →
      connect_calls (TryConnect s e).2.trace =
        connect_calls s.trace ++ (if e.create_ok then ["wss://" ++ rest] else []) ∧
      creations (TryConnect s e).2.trace = creations s.trace + 1 ∧
      (∃ tl : List Event,
        (TryConnect s e).2.trace = s.trace ++ Event.create_websocket :: tl)) ∧
    (∀ rest : String, e.url = "wss://" ++ rest →
      connect_calls (TryConnect s e).2.trace =
        connect_calls s.trace ++ (if e.create_ok then [e.url] else []) ∧
      creations (TryConnect s e).2.trace = creations s.trace + 1 ∧
      (∃ tl : List Event,
        (TryConnect s e).2.trace = s.trace ++ Event.create_websocket :: tl)) ∧
    ((∀ rest : String, e.url ≠ "ws://" ++ rest) → (∀ rest : String, e.url ≠ "wss://" ++ rest) →
      (TryConnect s e).1 = false ∧
      (TryConnect s e).2.error_occurred_ = true ∧
      creations (TryConnect s e).2.trace = creations s.trace ∧
      connect_calls (TryConnect s e).2.trace = connect_calls s.trace ∧
      (TryConnect s e).2.websocket_ = s.websocket_) := by
  refine ⟨?_, ?_, ?_⟩
  · intro rest hurl
    have hchk : checked_address e.url = some ("wss://" ++ rest) := by
      rw [hurl]; exact checked_address_ws rest
    have h := TryConnect_accepted_calls s e _ hchk
    exact ⟨h.1, h.2.1, ⟨_, (TryConnect_accepted_trace s e _ hchk).1⟩⟩
  · intro rest hurl
    have hchk : checked_address e.url = some e.url := by
      rw [hurl]; exact checked_address_wss rest
    have h := TryConnect_accepted_calls s e _ hchk
    exact ⟨h.1, h.2.1, ⟨_, (TryConnect_accepted_trace s e _ hchk).1⟩⟩
  · intro hws hwss
    have hchk := checked_address_other e.url hws hwss
    have h := TryConnect_rejected_result s e hchk
    refine ⟨by rw [h.1], h.2.1, ?_, ?_, h.2.2.1⟩
    · rw [h.2.2.2, creations_append]
      split <;> rfl
    · rw [h.2.2.2, connect_calls_append]
      split <;> simp [connect_calls]

/-- A string whose first characters differ from `p` is not `p` followed by anything. -/
theorem ne_append_of_take_ne (u p : String) (h : u.data.take p.data.length ≠ p.data) :
    ∀ rest : String, u ≠ p ++ rest := by
  intro rest heq
  apply h
  rw [heq, String.data_append]
  exact List.take_left' rfl

/-- Witness of C12: "ws://example.com/ws" is connected as "wss://example.com/ws",
and "http://example.com/" makes no creation and no `Connect` call. -/
theorem TryConnect_scheme_policy_witness :
    connect_calls (TryConnect (engine 1) insecure_address).2.trace = ["wss://example.com/ws"] ∧
    (TryConnect (engine 1) rejected_address).1 = false ∧
    creations (TryConnect (engine 1) rejected_address).2.trace = 0 ∧
    connect_calls (TryConnect (engine 1) rejected_address).2.trace = [] :=
  have h := TryConnect_scheme_policy (engine 1) insecure_address
  have h' := TryConnect_scheme_policy (engine 1) rejected_address
  have hws : ∀ rest : String, rejected_address.url ≠ "ws://" ++ rest :=
    ne_append_of_take_ne _ _ (by decide)
  have hwss : ∀ rest : String, rejected_address.url ≠ "wss://" ++ rest :=
    ne_append_of_take_ne _ _ (by decide)
  ⟨(h.1 "example.com/ws" rfl).1, (h'.2.2 hws hwss).1, (h'.2.2 hws hwss).2.2.1,
    (h'.2.2 hws hwss).2.2.2.1⟩

/-- C18, as stated, fails for whitespace other than the space character: a
token with a tab and no space is sent with the "Bearer " prefix, not verbatim. -/
theorem authorization_header_tab_counterexample :
    token_with_tab ≠ "" ∧
    token_with_tab.data.any Char.isWhitespace = true ∧
    authorization_headers (TryConnect (engine 1) (secure_address token_with_tab)).2.trace =
      ["Bearer " ++ token_with_tab] ∧
    authorization_headers (TryConnect (engine 1) (secure_address token_with_tab)).2.trace ≠
      [token_with_tab] := by
  decide

/-- C18, amended: when `TryConnect` accepts the address and creates a transport,
it sets no `Authorization` header for an empty token, the header "Bearer "
followed by the token for a non-empty token without space character, and the
token verbatim for a token that contains a space character; otherwise it sets
no `Authorization` header at all. -/
theorem TryConnect_authorization_header (s : WebsocketProtocol) (e : ConnectEnv) :
    authorization_headers (TryConnect s e).2.trace =
      authorization_headers s.trace ++
        (if (checked_address e.url).isSome = true ∧ e.create_ok = true then
          (if e.token = "" then []
            else if ' ' ∈ e.token.data then [e.token]
            else ["Bearer " ++ e.token])
        else []) := by
  cases hchk : checked_address e.url with
  | none =>
    rw [(TryConnect_rejected_result s e hchk).2.2.2, authorization_headers_append]
    simp only [Option.isSome_none, Bool.false_eq_true, false_and, if_false]
    split <;> rfl
  | some url =>
    rw [(TryConnect_accepted_calls s e url hchk).2.2]
    simp only [Option.isSome_some, true_and]

/-! ## A rejected address in `OpenAudioChannel` -/

theorem network_errors_append (a b : List Event) :
    network_errors (a ++ b) = network_errors a ++ network_errors b := by
  unfold network_errors
  exact List.filterMap_append _ _ _

theorem task_delays_append (a b : List Event) :
    task_delays (a ++ b) = task_delays a ++ task_delays b := by
  unfold task_delays
  exact List.filterMap_append _ _ _

/-- A failed round whose address is rejected: one notification when the
observer is registered, then the pause when a further attempt is due. -/
theorem failed_round_rejected (e : ConnectEnv) (s : WebsocketProtocol)
    (hchk : checked_address e.url = none) :
    (failed_round e s).trace =
      s.trace ++ (if s.on_network_error_ then
          [Event.network_error LangString.SERVER_NOT_FOUND] else []) ++
        (if s.connect_retry_count_ + 1 < 3 then [Event.task_delay 1000] else []) ∧
    (failed_round e s).on_network_error_ = s.on_network_error_ ∧
    (failed_round e s).websocket_ = s.websocket_ := by
  have h := TryConnect_rejected_result s e hchk
  have ho : (TryConnect s e).2.on_network_error_ = s.on_network_error_ := by
    rw [h.1]
    unfold SetError
    by_cases hv : e.version = 0 <;> cases hn : s.on_network_error_ <;> simp [hv, hn]
  unfold failed_round
  simp only [WEBSOCKET_MAX_CONNECT_RETRIES]
  by_cases hlt : s.connect_retry_count_ + 1 < 3
  · rw [if_pos hlt, if_pos hlt]
    exact ⟨by rw [h.2.2.2], ho, h.2.2.1⟩
  · rw [if_neg hlt, if_neg hlt]
    exact ⟨by rw [h.2.2.2, List.append_nil], ho, h.2.2.1⟩

/-- The trace of `OpenAudioChannel` when every attempt meets a rejected
address and no transport is held at the call. -/
theorem OpenAudioChannel_rejected_trace (L : HeaderLayout)
    (cJSON_Parse : List Byte → Option cJSON) (cJSON_PrintUnformatted : cJSON → String)
    (cfg : BuildConfig) (s : WebsocketProtocol) (env : OpenEnv)
    (hchk : ∀ i : Nat, checked_address (env.attempts i).url = none)
    (hnone : s.websocket_ = none) :
    (OpenAudioChannel L cJSON_Parse cJSON_PrintUnformatted cfg s env).2.trace =
      s.trace ++
        ((if s.on_network_error_ then [Event.network_error LangString.SERVER_NOT_FOUND]
            else []) ++ [Event.task_delay 1000] ++
          (if s.on_network_error_ then [Event.network_error LangString.SERVER_NOT_FOUND]
            else []) ++ [Event.task_delay 1000] ++
          (if s.on_network_error_ then [Event.network_error LangString.SERVER_NOT_FOUND]
            else []) ++
          (if s.on_network_error_ then [Event.network_error LangString.SERVER_NOT_CONNECTED]
            else [])) := by
  have hfail : ∀ (i : Nat) (s' : WebsocketProtocol),
      (TryConnect s' (env.attempts i)).1 = false := by
    intro i s'
    rw [(TryConnect_rejected_result s' (env.attempts i) (hchk i)).1]
  have hall := (OpenAudioChannel_all_attempts_fail L cJSON_Parse cJSON_PrintUnformatted cfg s env
    hfail hnone).1
  rw [hall]
  generalize hs0 : ({ s with error_occurred_ := false, connect_retry_count_ := 0 } :
    WebsocketProtocol) = s0
  have e0 : s0.trace = s.trace := by rw [← hs0]
  have o0 : s0.on_network_error_ = s.on_network_error_ := by rw [← hs0]
  have c0 : s0.connect_retry_count_ = 0 := by rw [← hs0]
  have h1 := failed_round_rejected (env.attempts 0) s0 (hchk 0)
  have c1 := failed_round_retry_count (env.attempts 0) s0
  generalize failed_round (env.attempts 0) s0 = f1 at h1 c1 ⊢
  have h2 := failed_round_rejected (env.attempts 1) f1 (hchk 1)
  have c2 := failed_round_retry_count (env.attempts 1) f1
  generalize failed_round (env.attempts 1) f1 = f2 at h2 c2 ⊢
  have h3 := failed_round_rejected (env.attempts 2) f2 (hchk 2)
  generalize failed_round (env.attempts 2) f2 = f3 at h3 ⊢
  rw [c0] at c1 h1
  rw [c1] at c2 h2
  rw [c2] at h3
  have t3 : (SetError f3 LangString.SERVER_NOT_CONNECTED).trace =
      f3.trace ++ (if f3.on_network_error_ then
        [Event.network_error LangString.SERVER_NOT_CONNECTED] else []) := by
    unfold SetError
    cases hn : f3.on_network_error_ <;> simp [hn]
  show (SetError f3 LangString.SERVER_NOT_CONNECTED).trace = _
  rw [t3, h3.1, h3.2.1, h2.1, h2.2.1, h1.1, h1.2.1, o0, e0]
  simp only [List.append_assoc]
  cases s.on_network_error_ <;> rfl

/-- C11, as stated, fails: with the address "http://example.com/" and no
transport held, `OpenAudioChannel` checks the address on three attempts,
notifies the network-error observer three times for it and a fourth time for
the failed connection, and pauses twice for 1000 ms before it returns `false`. -/
theorem OpenAudioChannel_rejected_address_counterexample :
    (∀ rest : String, rejected_address.url ≠ "ws://" ++ rest) ∧
    (∀ rest : String, rejected_address.url ≠ "wss://" ++ rest) ∧
    (OpenAudioChannel layout_12_6 parse_nothing print_nothing sample_config (engine 1)
      rejected_address_env).1 = false ∧
    (OpenAudioChannel layout_12_6 parse_nothing print_nothing sample_config (engine 1)
      rejected_address_env).2.trace =
      [Event.network_error LangString.SERVER_NOT_FOUND, Event.task_delay 1000,
       Event.network_error LangString.SERVER_NOT_FOUND, Event.task_delay 1000,
       Event.network_error LangString.SERVER_NOT_FOUND,
       Event.network_error LangString.SERVER_NOT_CONNECTED] := by
  refine ⟨ne_append_of_take_ne _ _ (by decide), ne_append_of_take_ne _ _ (by decide), ?_, ?_⟩
  · rw [(OpenAudioChannel_all_attempts_fail layout_12_6 parse_nothing print_nothing
      sample_config (engine 1) rejected_address_env (fun _ _ => rfl) rfl).1]
  · rw [OpenAudioChannel_rejected_trace layout_12_6 parse_nothing print_nothing sample_config
      (engine 1) rejected_address_env (fun _ => rfl) rfl]
    rfl

/-- C11, amended: when on every attempt the configured address starts with
neither "ws://" nor "wss://" and the engine holds no transport at the call,
`OpenAudioChannel` treats the rejected address like any failed attempt: it
makes three attempts with a pause of 1000 ms after the first and the second,
notifies the network-error observer with `SERVER_NOT_FOUND` on each attempt and
with `SERVER_NOT_CONNECTED` at the end, creates no transport, makes no
`Connect` call, and returns `false` with the error flagged and the retry
counter 3. -/
theorem OpenAudioChannel_rejected_address (L : HeaderLayout)
    (cJSON_Parse : List Byte → Option cJSON) (cJSON_PrintUnformatted : cJSON → String)
    (cfg : BuildConfig) (s : WebsocketProtocol) (env : OpenEnv)
    (hws : ∀ (i : Nat) (rest : String), (env.attempts i).url ≠ "ws://" ++ rest)
    (hwss : ∀ (i : Nat) (rest : String), (env.attempts i).url ≠ "wss://" ++ rest)
    (hnone : s.websocket_ = none) :
    (OpenAudioChannel L cJSON_Parse cJSON_PrintUnformatted cfg s env).1 = false ∧
    (OpenAudioChannel L cJSON_Parse cJSON_PrintUnformatted cfg s env).2.error_occurred_
      = true ∧
    (OpenAudioChannel L cJSON_Parse cJSON_PrintUnformatted cfg s env).2.connect_retry_count_
      = 3 ∧
    network_errors (OpenAudioChannel L cJSON_Parse cJSON_PrintUnformatted cfg s env).2.trace =
      network_errors s.trace ++
        (if s.on_network_error_ then
          [LangString.SERVER_NOT_FOUND, LangString.SERVER_NOT_FOUND,
           LangString.SERVER_NOT_FOUND, LangString.SERVER_NOT_CONNECTED]
        else []) ∧
    task_delays (OpenAudioChannel L cJSON_Parse cJSON_PrintUnformatted cfg s env).2.trace =
      task_delays s.trace ++ [1000, 1000] ∧
    creations (OpenAudioChannel L cJSON_Parse cJSON_PrintUnformatted cfg s env).2.trace =
      creations s.trace ∧
    connect_calls (OpenAudioChannel L cJSON_Parse cJSON_PrintUnformatted cfg s env).2.trace =
      connect_calls s.trace := by
  have hchk : ∀ i : Nat, checked_address (env.attempts i).url = none :=
    fun i => checked_address_other _ (hws i) (hwss i)
  have hfail : ∀ (i : Nat) (s' : WebsocketProtocol),
      (TryConnect s' (env.attempts i)).1 = false := by
    intro i s'
    rw [(TryConnect_rejected_result s' (env.attempts i) (hchk i)).1]
  have hall := OpenAudioChannel_all_attempts_fail L cJSON_Parse cJSON_PrintUnformatted cfg s env
    hfail hnone
  have htr := OpenAudioChannel_rejected_trace L cJSON_Parse cJSON_PrintUnformatted cfg s env
    hchk hnone
  refine ⟨by rw [hall.1], hall.2.2, hall.2.1, ?_, ?_, ?_, ?_⟩
  · rw [htr, network_errors_append]
    cases s.on_network_error_ <;> simp <;> rfl
  · rw [htr, task_delays_append]
    cases s.on_network_error_ <;> simp <;> rfl
  · rw [htr, creations_append]
    cases s.on_network_error_ <;> rfl
  · rw [htr, connect_calls_append]
    cases s.on_network_error_ <;> simp <;> rfl

/-- Witness of C11: the address "http://example.com/" on every attempt. -/
theorem OpenAudioChannel_rejected_address_witness :
    (engine 1).websocket_ = none ∧
    network_errors (OpenAudioChannel layout_12_6 parse_nothing print_nothing sample_config
      (engine 1) rejected_address_env).2.trace =
      [LangString.SERVER_NOT_FOUND, LangString.SERVER_NOT_FOUND,
       LangString.SERVER_NOT_FOUND, LangString.SERVER_NOT_CONNECTED] ∧
    task_delays (OpenAudioChannel layout_12_6 parse_nothing print_nothing sample_config
      (engine 1) rejected_address_env).2.trace = [1000, 1000] :=
  have h := OpenAudioChannel_rejected_address layout_12_6 parse_nothing print_nothing
    sample_config (engine 1) rejected_address_env
    (fun _ => ne_append_of_take_ne rejected_address.url "ws://" (by decide))
    (fun _ => ne_append_of_take_ne rejected_address.url "wss://" (by decide)) rfl
  ⟨rfl, h.2.2.2.1, h.2.2.2.2.1⟩

/-! ## The handshake wait -/

/-- The retry loop ends with the first attempt when that attempt connects. -/
theorem connect_loop_first_attempt (s : WebsocketProtocol) (env : OpenEnv)
    (hok : (TryConnect { s with error_occurred_ := false, connect_retry_count_ := 0 }
      (env.attempts 0)).1 = true) :
    connect_loop env.attempts { s with error_occurred_ := false, connect_retry_count_ := 0 } =
      (TryConnect { s with error_occurred_ := false, connect_retry_count_ := 0 }
        (env.attempts 0)).2 :=
  connect_loop_connected env.attempts _ (show (0 : Int) < 3 by decide) hok

/-- C13 at the failing input: the address is accepted, the transport connects,
the client hello is sent and no server hello arrives within the wait.
`OpenAudioChannel` returns `false`, flags the error and notifies the observer
with `SERVER_TIMEOUT`, but it does not release the transport: the engine still
holds the connected handle. -/
theorem OpenAudioChannel_timeout_keeps_handle :
    (OpenAudioChannel layout_12_6 parse_nothing print_nothing sample_config (engine 1)
      silent_peer_env).1 = false ∧
    (OpenAudioChannel layout_12_6 parse_nothing print_nothing sample_config (engine 1)
      silent_peer_env).2.error_occurred_ = true ∧
    network_errors (OpenAudioChannel layout_12_6 parse_nothing print_nothing sample_config
      (engine 1) silent_peer_env).2.trace = [LangString.SERVER_TIMEOUT] ∧
    (OpenAudioChannel layout_12_6 parse_nothing print_nothing sample_config (engine 1)
      silent_peer_env).2.websocket_ = some { is_connected := true } ∧
    (OpenAudioChannel layout_12_6 parse_nothing print_nothing sample_config (engine 1)
      silent_peer_env).2.websocket_ ≠ none := by
  have h : OpenAudioChannel layout_12_6 parse_nothing print_nothing sample_config (engine 1)
      silent_peer_env =
      (false,
        { engine 1 with
          error_occurred_ := true
          websocket_ := some { is_connected := true }
          trace :=
            [Event.create_websocket, Event.set_header "Protocol-Version" "1",
             Event.set_header "Device-Id" "mac", Event.set_header "Client-Id" "uuid",
             Event.connect "wss://example.com/ws", Event.send_text "",
             Event.network_error LangString.SERVER_TIMEOUT] }) := by
    unfold OpenAudioChannel
    simp only []
    rw [connect_loop_first_attempt (engine 1) silent_peer_env rfl]
    rfl
  rw [h]
  exact ⟨rfl, rfl, rfl, rfl, by simp⟩

/-- C19 at the failing input. A first `OpenAudioChannel` times out; the server
hello of that attempt arrives afterwards and sets the event bit; a second
`OpenAudioChannel` then sends its client hello with the bit still set, and
although nothing arrives during its wait it returns `true` and notifies
"channel opened". -/
theorem stale_server_hello_satisfies_later_wait :
    (OpenAudioChannel layout_12_6 parse_scenario_hello print_nothing sample_config (engine 1)
      silent_peer_env).1 = false ∧
    (OnData layout_12_6 parse_scenario_hello
      (OpenAudioChannel layout_12_6 parse_scenario_hello print_nothing sample_config (engine 1)
        silent_peer_env).2 [] false 11).server_hello_event = true ∧
    (SendText
      (connect_loop silent_peer_env.attempts
        { OnData layout_12_6 parse_scenario_hello
            (OpenAudioChannel layout_12_6 parse_scenario_hello print_nothing sample_config
              (engine 1) silent_peer_env).2 [] false 11 with
          error_occurred_ := false, connect_retry_count_ := 0 })
      "" silent_peer_env.send_ok).2.server_hello_event = true ∧
    silent_peer_env.inbound = [] ∧
    (OpenAudioChannel layout_12_6 parse_scenario_hello print_nothing sample_config
      (OnData layout_12_6 parse_scenario_hello
        (OpenAudioChannel layout_12_6 parse_scenario_hello print_nothing sample_config (engine 1)
          silent_peer_env).2 [] false 11)
      silent_peer_env).1 = true := by
  have h1 : OpenAudioChannel layout_12_6 parse_scenario_hello print_nothing sample_config
      (engine 1) silent_peer_env =
      (false,
        { engine 1 with
          error_occurred_ := true
          websocket_ := some { is_connected := true }
          trace :=
            [Event.create_websocket, Event.set_header "Protocol-Version" "1",
             Event.set_header "Device-Id" "mac", Event.set_header "Client-Id" "uuid",
             Event.connect "wss://example.com/ws", Event.send_text "",
             Event.network_error LangString.SERVER_TIMEOUT] }) := by
    unfold OpenAudioChannel
    simp only []
    rw [connect_loop_first_attempt (engine 1) silent_peer_env rfl]
    rfl
  refine ⟨by rw [h1], ?_⟩
  have e1 := congrArg Prod.snd h1
  simp only [] at e1
  rw [e1]
  generalize hs2 : OnData layout_12_6 parse_scenario_hello
    { engine 1 with
      error_occurred_ := true
      websocket_ := some { is_connected := true }
      trace :=
        [Event.create_websocket, Event.set_header "Protocol-Version" "1",
         Event.set_header "Device-Id" "mac", Event.set_header "Client-Id" "uuid",
         Event.connect "wss://example.com/ws", Event.send_text "",
         Event.network_error LangString.SERVER_TIMEOUT] } [] false 11 = s2
  have hloop := connect_loop_first_attempt s2 silent_peer_env rfl
  refine ⟨?_, ?_, rfl, ?_⟩
  · rw [← hs2]; rfl
  · rw [hloop, ← hs2]; rfl
  · unfold OpenAudioChannel
    simp only []
    rw [hloop, ← hs2]
    rfl

/-! ## Inbound text frames and liveness -/

/-- C14 at the failing input: a text frame that does not parse as JSON makes the
handler return before its last statement, so `last_incoming_time_` keeps its
value 0 and is not set to the current time 5; a frame that parses but carries
no `type` is logged as well and does set it. -/
theorem malformed_text_frame_skips_liveness :
    parse_nothing [123] = none ∧
    (engine 1).last_incoming_time_ = 0 ∧
    (OnData layout_12_6 parse_nothing (engine 1) [123] false 5).last_incoming_time_ = 0 ∧
    (OnData layout_12_6 parse_nothing (engine 1) [123] false 5).last_incoming_time_ ≠ 5 ∧
    (OnData layout_12_6 parse_untyped_message (engine 1) [123] false 5).last_incoming_time_
      = 5 := by
  refine ⟨rfl, rfl, rfl, ?_, rfl⟩
  decide

theorem ParseServerHello_trace (s : WebsocketProtocol) (root : cJSON) :
    (ParseServerHello s root).trace = s.trace := by
  by_cases ht : cJSON_GetObjectItem (some root) "transport" = some (cJSON.string "websocket")
  · rw [ParseServerHello_accepted s root ht]
  · rw [ParseServerHello_rejected s root ht]

/-- C20, as stated, fails for a message without string `type`: it parses, it
is not a hello, an observer is registered, and it is not passed to the
observer. -/
theorem untyped_message_counterexample :
    parse_untyped_message [123] = some untyped_message ∧
    cJSON_GetObjectItem (some untyped_message) "type" = none ∧
    (engine 1).on_incoming_json_ = true ∧
    (OnData layout_12_6 parse_untyped_message (engine 1) [123] false 5).trace = [] :=
  ⟨rfl, rfl, rfl, rfl⟩

/-- C20, amended: for a text frame that parses as JSON, a message whose `type`
is the string "hello" goes to `ParseServerHello` and not to the incoming-JSON
observer; a message whose `type` is another string is passed to the
incoming-JSON observer when one is registered and to nobody when none is; a
message whose `type` is missing or not a string is passed to nobody. In every
case `last_incoming_time_` is set to the current time. -/
theorem text_frame_dispatch (L : HeaderLayout) (cJSON_Parse : List Byte → Option cJSON)
    (s : WebsocketProtocol) (data : List Byte) (now : Int) (root : cJSON)
    (hparse : cJSON_Parse data = some root) :
    (cJSON_GetObjectItem (some root) "type" = some (cJSON.string "hello") →
      OnData L cJSON_Parse s data false now =
        { ParseServerHello s root with last_incoming_time_ := now } ∧
      (OnData L cJSON_Parse s data false now).trace = s.trace) ∧
    (∀ t : String, cJSON_GetObjectItem (some root) "type" = some (cJSON.string t) →
      t ≠ "hello" →
      OnData L cJSON_Parse s data false now =
        (if s.on_incoming_json_ then
          { s with trace := s.trace ++ [Event.incoming_json root], last_incoming_time_ := now }
        else { s with last_incoming_time_ := now })) ∧
    (cJSON_IsString (cJSON_GetObjectItem (some root) "type") = false →
      OnData L cJSON_Parse s data false now = { s with last_incoming_time_ := now }) := by
  refine ⟨?_, ?_, ?_⟩
  · intro ht
    have h : OnData L cJSON_Parse s data false now =
        { ParseServerHello s root with last_incoming_time_ := now } := by
      simp [OnData, hparse, ht]
    refine ⟨h, ?_⟩
    rw [h]
    exact ParseServerHello_trace s root
  · intro t ht hne
    simp only [OnData, hparse, ht, Bool.false_eq_true, if_false, hne]
    split <;> rfl
  · intro hns
    simp only [OnData, hparse, Bool.false_eq_true, if_false]
    split
    · rename_i heq
      rw [heq] at hns
      simp [cJSON_IsString] at hns
    · rfl

/-- Witness of C20: a "tts" message reaches the registered observer. -/
theorem text_frame_dispatch_witness :
    parse_tts_message [123] = some tts_message ∧
    OnData layout_12_6 parse_tts_message (engine 1) [123] false 5 =
      (if (engine 1).on_incoming_json_ then
        { engine 1 with
          trace := (engine 1).trace ++ [Event.incoming_json tts_message]
          last_incoming_time_ := 5 }
      else { engine 1 with last_incoming_time_ := 5 }) :=
  ⟨rfl,
    (text_frame_dispatch layout_12_6 parse_tts_message (engine 1) [123] 5 tts_message rfl).2.1
      "tts" rfl (by decide)⟩

/-! ## The idle timeout -/

/-- `IsTimeout` in terms of the ticks elapsed since the last inbound activity. -/
theorem IsTimeout_iff (s : WebsocketProtocol) (now : Int) :
    IsTimeout s now = true ↔
      now - s.last_incoming_time_ ≥ 121 * steady_clock_ticks_per_second := by
  unfold IsTimeout steady_clock_ticks_per_second
  simp only [decide_eq_true_eq]
  generalize now - s.last_incoming_time_ = d
  by_cases hd : 0 ≤ d
  · rw [Int.tdiv_eq_ediv hd (by decide)]
    omega
  · have hneg : (0 : Int) ≤ -d := by omega
    have h1 : d.tdiv 1000000000 = -((-d).tdiv 1000000000) := by
      rw [Int.neg_tdiv, Int.neg_neg]
    have h2 := Int.tdiv_nonneg hneg (show (0 : Int) ≤ 1000000000 by decide)
    rw [h1]
    constructor
    · intro h; omega
    · intro h; omega

/-- C15, as stated, fails at the threshold: 120 seconds after the last inbound
activity, and up to one tick before 121 seconds, `IsTimeout` is still false. -/
theorem IsTimeout_at_120_seconds_counterexample :
    (engine 1).last_incoming_time_ = 0 ∧
    IsTimeout (engine 1) (120 * steady_clock_ticks_per_second) = false ∧
    IsTimeout (engine 1) (121 * steady_clock_ticks_per_second - 1) = false ∧
    IsTimeout (engine 1) (121 * steady_clock_ticks_per_second) = true := by
  decide

/-- C15, amended: right after the handler has handled a binary frame that
decodes or a text frame that parses, `IsTimeout` is false at that clock
reading; and in every state `IsTimeout` is true exactly when at least 121
seconds have elapsed since `last_incoming_time_` (the elapsed time is truncated
to whole seconds and must exceed 120), so it is still false after 120 seconds. -/
theorem IsTimeout_after_activity (L : HeaderLayout) (cJSON_Parse : List Byte → Option cJSON)
    (s : WebsocketProtocol) (data : List Byte) (binary : Bool) (now : Int)
    (h : (binary = true ∧ ∃ p : AudioStreamPacket, decode_frame L s data = FrameResult.packet p) ∨
      (binary = false ∧ ∃ root : cJSON, cJSON_Parse data = some root)) :
    (OnData L cJSON_Parse s data binary now).last_incoming_time_ = now ∧
    IsTimeout (OnData L cJSON_Parse s data binary now) now = false ∧
    (∀ (s' : WebsocketProtocol) (t : Int),
      IsTimeout s' t = true ↔
        t - s'.last_incoming_time_ ≥ 121 * steady_clock_ticks_per_second) := by
  have hlast : (OnData L cJSON_Parse s data binary now).last_incoming_time_ = now := by
    rcases h with ⟨hb, p, hp⟩ | ⟨hb, root, hroot⟩
    · subst hb
      simp only [OnData, if_true, hp]
      split <;> rfl
    · subst hb
      simp only [OnData, Bool.false_eq_true, if_false, hroot]
  refine ⟨hlast, ?_, IsTimeout_iff⟩
  cases hto : IsTimeout (OnData L cJSON_Parse s data binary now) now
  · rfl
  · rw [IsTimeout_iff, hlast] at hto
    simp only [steady_clock_ticks_per_second] at hto
    omega

/-- Witness of C15: after the sample version-2 frame handled at time 7. -/
theorem IsTimeout_after_activity_witness :
    decode_frame layout_12_6 (engine 2) (sample_frame_v2 layout_12_6) =
      FrameResult.packet ⟨24000, 60, 258, [7, 8, 9]⟩ ∧
    IsTimeout (OnData layout_12_6 parse_nothing (engine 2) (sample_frame_v2 layout_12_6) true 7)
      7 = false :=
  ⟨by decide,
    (IsTimeout_after_activity layout_12_6 parse_nothing (engine 2) (sample_frame_v2 layout_12_6)
      true 7 (Or.inl ⟨rfl, ⟨24000, 60, 258, [7, 8, 9]⟩, by decide⟩)).2.1⟩

/-! ## The MCP passthrough -/

/-- C21: for every payload text `p`, `SendMcpMessage` builds the JSON object
with exactly the members `session_id` (the current session id), `type` ("mcp")
and `payload`, in that order, where `payload` is the parsed value of `p` when
`p` parses and the JSON string `p` when it does not, and passes its text to
`SendText`; no payload is rejected. `SendText` hands the text to the transport
whenever the transport is connected. -/
theorem SendMcpMessage_message (cJSON_Parse : String → Option cJSON)
    (cJSON_PrintUnformatted : cJSON → String) (s : WebsocketProtocol) (p : String)
    (send_ok : Bool) :
    SendMcpMessage cJSON_Parse cJSON_PrintUnformatted s p send_ok =
      (SendText s
        (cJSON_PrintUnformatted (mcp_message s.session_id_
          (match cJSON_Parse p with
            | some value => value
            | none => cJSON.string p)))
        send_ok).2 ∧
    (SendMcpMessage cJSON_Parse cJSON_PrintUnformatted s p send_ok).trace =
      (match s.websocket_ with
        | some ws =>
          if ws.is_connected then
            s.trace ++ Event.send_text
              (cJSON_PrintUnformatted (mcp_message s.session_id_
                (match cJSON_Parse p with
                  | some value => value
                  | none => cJSON.string p))) ::
              (if !send_ok && s.on_network_error_ then
                [Event.network_error LangString.SERVER_ERROR] else [])
          else s.trace
        | none => s.trace) := by
  have h : SendMcpMessage cJSON_Parse cJSON_PrintUnformatted s p send_ok =
      (SendText s
        (cJSON_PrintUnformatted (mcp_message s.session_id_
          (match cJSON_Parse p with
            | some value => value
            | none => cJSON.string p)))
        send_ok).2 := by
    unfold SendMcpMessage
    cases cJSON_Parse p <;> rfl
  refine ⟨h, ?_⟩
  rw [h]
  unfold SendText SetError
  cases hw : s.websocket_ with
  | none => rfl
  | some ws =>
    cases ws with
    | mk c =>
      cases c
      · rfl
      · cases send_ok <;> cases hn : s.on_network_error_ <;> simp [hn]

/-! ## The backlight transition -/

/-- One tick of the timer during a transition: the invariant is kept, the
distance to the target shrinks by the step size or to zero, and the brightness
stays between its old value and the target. -/
theorem OnTransitionTimer_step (t : Nat) (m : Int) (s : Backlight)
    (hinv : transition_invariant t m s) :
    transition_invariant t m (OnTransitionTimer s) ∧
    (distance_to t (OnTransitionTimer s) : Int) = max 0 ((distance_to t s : Int) - m) ∧
    (s.brightness_ < t →
      s.brightness_ < (OnTransitionTimer s).brightness_ ∧
      (OnTransitionTimer s).brightness_ ≤ t) ∧
    (t < s.brightness_ →
      t ≤ (OnTransitionTimer s).brightness_ ∧
      (OnTransitionTimer s).brightness_ < s.brightness_) ∧
    (s.brightness_ = t → OnTransitionTimer s = { s with timer_running := false }) := by
  obtain ⟨htgt, ht, hb, hm, hdir⟩ := hinv
  unfold OnTransitionTimer
  by_cases heq : s.brightness_ = s.target_brightness_
  · rw [if_pos heq]
    rw [htgt] at heq
    refine ⟨⟨htgt, ht, hb, hm, hdir⟩, ?_, ?_, ?_, fun _ => rfl⟩
    · simp only [distance_to, heq]
      omega
    · intro h; omega
    · intro h; omega
  · rw [if_neg heq]
    rw [htgt] at heq
    simp only [htgt]
    rcases hdir with ⟨hle, hstep⟩ | ⟨hge, hstep⟩
    · have hpos : s.step_ > 0 := by omega
      simp only [hstep] at hpos ⊢
      simp only [hpos, if_true]
      by_cases hreach : (s.brightness_ : Int) + m ≥ (t : Int)
      · simp only [hreach, if_true]
        refine ⟨⟨rfl, ht, by simpa using ht, hm, Or.inl ⟨le_refl _, rfl⟩⟩, ?_, ?_, ?_, ?_⟩
        · simp only [distance_to]
          omega
        · intro h; constructor <;> omega
        · intro h; omega
        · intro h; omega
      · simp only [hreach, if_false]
        have hval : (((s.brightness_ : Int) + m) % 256).toNat = s.brightness_ + m.toNat := by
          omega
        simp only [hval]
        have hne : ¬ (s.brightness_ + m.toNat = t) := by omega
        simp only [hne, if_false]
        refine ⟨⟨rfl, ht, by simp; omega, hm, Or.inl ⟨by simp; omega, rfl⟩⟩, ?_, ?_, ?_, ?_⟩
        · simp only [distance_to]
          omega
        · intro h; constructor <;> omega
        · intro h; omega
        · intro h; omega
    · have hneg : ¬ (s.step_ > 0) := by omega
      simp only [hstep] at hneg ⊢
      simp only [hneg, if_false]
      by_cases hreach : (s.brightness_ : Int) + -m ≤ (t : Int)
      · simp only [hreach, if_true]
        refine ⟨⟨rfl, ht, by simpa using ht, hm, Or.inr ⟨le_refl _, rfl⟩⟩, ?_, ?_, ?_, ?_⟩
        · simp only [distance_to]
          omega
        · intro h; omega
        · intro h; constructor <;> omega
        · intro h; omega
      · simp only [hreach, if_false]
        have hval : (((s.brightness_ : Int) + -m) % 256).toNat = s.brightness_ - m.toNat := by
          omega
        simp only [hval]
        have hne : ¬ (s.brightness_ - m.toNat = t) := by omega
        simp only [hne, if_false]
        refine ⟨⟨rfl, ht, by simp; omega, hm, Or.inr ⟨by simp; omega, rfl⟩⟩, ?_, ?_, ?_, ?_⟩
        · simp only [distance_to]
          omega
        · intro h; omega
        · intro h; constructor <;> omega
        · intro h; omega

theorem after_ticks_succ (n : Nat) (s : Backlight) :
    after_ticks (n + 1) s = OnTransitionTimer (after_ticks n s) := by
  induction n generalizing s with
  | zero => rfl
  | succ k ih =>
    show after_ticks (k + 1) (OnTransitionTimer s) = _
    rw [ih (OnTransitionTimer s)]
    rfl

/-- After `n` ticks of a transition the distance to the target has shrunk by
`n` steps, or to zero. -/
theorem after_ticks_distance (t : Nat) (m : Int) (n : Nat) (s : Backlight)
    (hinv : transition_invariant t m s) :
    transition_invariant t m (after_ticks n s) ∧
    (distance_to t (after_ticks n s) : Int) = max 0 ((distance_to t s : Int) - n * m) := by
  induction n generalizing s with
  | zero =>
    refine ⟨hinv, ?_⟩
    show (distance_to t s : Int) = _
    simp only [Nat.cast_zero, Int.zero_mul]
    omega
  | succ k ih =>
    have hstep := OnTransitionTimer_step t m s hinv
    have hk := ih (OnTransitionTimer s) hstep.1
    have hm : 1 ≤ m := hinv.2.2.2.1
    have hkm : (0 : Int) ≤ k * m := Int.mul_nonneg (Int.ofNat_nonneg k) (by omega)
    have hmul : ((k + 1 : Nat) : Int) * m = k * m + m := by
      push_cast
      ring
    refine ⟨hk.1, ?_⟩
    show (distance_to t (after_ticks k (OnTransitionTimer s)) : Int) = _
    rw [hk.2, hstep.2.1, hmul]
    generalize (k : Int) * m = km at hkm
    omega

/-- The state `SetBrightness` leaves when the clamped request differs from the
current brightness. -/
theorem SetBrightness_starts_transition (s : Backlight) (b : Nat) (permanent : Bool)
    (hc : s.brightness_ ≤ 100) (hne : min b 100 ≠ s.brightness_) :
    (SetBrightness s b permanent).target_brightness_ = min b 100 ∧
    (SetBrightness s b permanent).brightness_ = s.brightness_ ∧
    (SetBrightness s b permanent).step_ =
      (if s.brightness_ < min b 100 then max 1 ((distance_to (min b 100) s : Int) / 15)
        else -(max 1 ((distance_to (min b 100) s : Int) / 15))) ∧
    (SetBrightness s b permanent).timer_running = true ∧
    transition_invariant (min b 100) (max 1 ((distance_to (min b 100) s : Int) / 15))
      (SetBrightness s b permanent) := by
  have hclamp : (if b > 100 then 100 else b) = min b 100 := by
    split <;> omega
  have hdist : 0 < distance_to (min b 100) s := by
    unfold distance_to
    omega
  have hres : SetBrightness s b permanent =
      { (if permanent then { s with saved := s.saved ++ [min b 100] } else s) with
        target_brightness_ := min b 100
        step_ :=
          (if s.brightness_ < min b 100 then max 1 ((distance_to (min b 100) s : Int) / 15)
            else -(max 1 ((distance_to (min b 100) s : Int) / 15)))
        timer_running := true } := by
    unfold SetBrightness
    simp only [hclamp]
    rw [if_neg (fun h => hne h.symm)]
    cases permanent
    · simp only [Bool.false_eq_true, if_false]
      have hd : ((((min b 100 : Nat) : Int) - (s.brightness_ : Int)).natAbs : Int) > 0 := by
        unfold distance_to at hdist
        omega
      simp only [hd, if_true, distance_to, gt_iff_lt]
    · simp only [if_true]
      have hd : ((((min b 100 : Nat) : Int) - (s.brightness_ : Int)).natAbs : Int) > 0 := by
        unfold distance_to at hdist
        omega
      simp only [hd, if_true, distance_to, gt_iff_lt]
  rw [hres]
  have hb : ∀ q : Backlight, (if permanent then { s with saved := s.saved ++ [min b 100] }
      else s) = q → q.brightness_ = s.brightness_ := by
    intro q hq
    rw [← hq]
    cases permanent <;> rfl
  have hbr := hb _ rfl
  refine ⟨rfl, hbr, rfl, rfl, ?_⟩
  refine ⟨rfl, by omega, by simpa [hbr] using hc, by omega, ?_⟩
  by_cases hlt : s.brightness_ < min b 100
  · left
    exact ⟨by simp only [hbr]; omega, by simp only [hlt, if_true]⟩
  · right
    exact ⟨by simp only [hbr]; omega, by simp only [hlt, if_false]⟩

/-- C24: for every current brightness `c ≤ 100` and request `b` whose clamped
value `min b 100` differs from `c`, `SetBrightness` sets the target to
`min b 100` and a non-zero step with the sign of `target - c`; each tick of the
transition timer before the target is reached moves the brightness strictly
toward the target and never past it; after 29 ticks at the latest the
brightness equals the target, and from then on a tick changes nothing but the
stopped timer. -/
theorem backlight_transition_converges (s : Backlight) (b : Nat) (permanent : Bool)
    (hc : s.brightness_ ≤ 100) (hne : min b 100 ≠ s.brightness_) :
    (SetBrightness s b permanent).target_brightness_ = min b 100 ∧
    (SetBrightness s b permanent).step_ ≠ 0 ∧
    (0 < (SetBrightness s b permanent).step_ ↔ s.brightness_ < min b 100) ∧
    ((SetBrightness s b permanent).step_ < 0 ↔ min b 100 < s.brightness_) ∧
    (∀ n : Nat,
      ((after_ticks n (SetBrightness s b permanent)).brightness_ < min b 100 →
        (after_ticks n (SetBrightness s b permanent)).brightness_ <
          (after_ticks (n + 1) (SetBrightness s b permanent)).brightness_ ∧
        (after_ticks (n + 1) (SetBrightness s b permanent)).brightness_ ≤ min b 100) ∧
      (min b 100 < (after_ticks n (SetBrightness s b permanent)).brightness_ →
        min b 100 ≤ (after_ticks (n + 1) (SetBrightness s b permanent)).brightness_ ∧
        (after_ticks (n + 1) (SetBrightness s b permanent)).brightness_ <
          (after_ticks n (SetBrightness s b permanent)).brightness_) ∧
      ((after_ticks n (SetBrightness s b permanent)).brightness_ = min b 100 →
        after_ticks (n + 1) (SetBrightness s b permanent) =
          { after_ticks n (SetBrightness s b permanent) with timer_running := false })) ∧
    (∀ n : Nat, 29 ≤ n →
      (after_ticks n (SetBrightness s b permanent)).brightness_ = min b 100) := by
  obtain ⟨htgt, hbr, hstep, _, hinv⟩ := SetBrightness_starts_transition s b permanent hc hne
  have hd100 : distance_to (min b 100) s ≤ 100 := by
    unfold distance_to
    omega
  have hd0 : 0 < distance_to (min b 100) s := by
    unfold distance_to
    omega
  refine ⟨htgt, ?_, ?_, ?_, ?_, ?_⟩
  · rw [hstep]
    split <;> omega
  · rw [hstep]
    constructor
    · intro h
      by_contra hlt
      rw [if_neg hlt] at h
      omega
    · intro hlt
      rw [if_pos hlt]
      omega
  · rw [hstep]
    constructor
    · intro h
      by_contra hge
      have hlt : s.brightness_ < min b 100 := by omega
      rw [if_pos hlt] at h
      omega
    · intro hgt
      have hlt : ¬ s.brightness_ < min b 100 := by omega
      rw [if_neg hlt]
      omega
  · intro n
    have hn := (after_ticks_distance (min b 100) _ n _ hinv).1
    have h := OnTransitionTimer_step (min b 100) _ _ hn
    rw [after_ticks_succ]
    exact ⟨h.2.2.1, h.2.2.2.1, h.2.2.2.2⟩
  · intro n hn
    have h := (after_ticks_distance (min b 100) _ n _ hinv).2
    have hdist : distance_to (min b 100) (SetBrightness s b permanent) =
        distance_to (min b 100) s := by
      unfold distance_to
      rw [hbr]
    rw [hdist] at h
    have hm : (1 : Int) ≤ max 1 ((distance_to (min b 100) s : Int) / 15) := by omega
    have hmul : (29 : Int) * max 1 ((distance_to (min b 100) s : Int) / 15) ≤
        (n : Int) * max 1 ((distance_to (min b 100) s : Int) / 15) :=
      Int.mul_le_mul_of_nonneg_right (by omega) (by omega)
    generalize (n : Int) * max 1 ((distance_to (min b 100) s : Int) / 15) = nm at h hmul
    have hzero : distance_to (min b 100) (after_ticks n (SetBrightness s b permanent)) = 0 := by
      omega
    unfold distance_to at hzero
    omega

/-- Witness of C24: from brightness 71 to the request 100 the step is 1 and the
target is reached after 29 ticks. -/
theorem backlight_transition_converges_witness :
    (backlight_at 71).brightness_ ≤ 100 ∧ min 100 100 ≠ (backlight_at 71).brightness_ ∧
    (SetBrightness (backlight_at 71) 100 false).step_ ≠ 0 ∧
    (after_ticks 29 (SetBrightness (backlight_at 71) 100 false)).brightness_ = min 100 100 ∧
    (after_ticks 28 (SetBrightness (backlight_at 71) 100 false)).brightness_ = 99 :=
  have h := backlight_transition_converges (backlight_at 71) 100 false (by decide) (by decide)
  ⟨by decide, by decide, h.2.1, h.2.2.2.2.2 29 (le_refl 29), by decide⟩

/-! ## Restoring the brightness -/

theorem SetBrightness_clamp (s : Backlight) (b : Nat) (permanent : Bool) :
    SetBrightness s b permanent = SetBrightness s (min b 100) permanent := by
  have h1 : (if b > 100 then 100 else b) = min b 100 := by split <;> omega
  have h2 : (if min b 100 > 100 then 100 else min b 100) = min b 100 := by split <;> omega
  unfold SetBrightness
  simp only [h1, h2]

/-- For a stored value of at most 255 `RestoreBrightness` requests a brightness
in [1, 100]. -/
theorem RestoreBrightness_below_256 (s : Backlight) (v : Int) (hv : v ≤ 255) :
    ∃ r : Nat, 1 ≤ r ∧ r ≤ 100 ∧ RestoreBrightness s v = SetBrightness s r false := by
  unfold RestoreBrightness
  by_cases h0 : v ≤ 0
  · exact ⟨10, by decide, by decide, by simp only [h0, if_true]; rfl⟩
  · simp only [h0, if_false]
    refine ⟨min (v % 256).toNat 100, by omega, by omega, ?_⟩
    exact SetBrightness_clamp s _ false

/-- C25 at the failing input: the stored value 256 is positive, so it passes
the check for values that are too small, and the conversion to `uint8_t` at
the call of `SetBrightness` turns it into 0: from brightness 50 the target
becomes 0 and the transition ends at 0, and from brightness 0 nothing happens.
The stored value 300 becomes 44 and is not clamped to 100. -/
theorem RestoreBrightness_wraps_at_256 :
    (RestoreBrightness (backlight_at 50) 256).target_brightness_ = 0 ∧
    (after_ticks 29 (RestoreBrightness (backlight_at 50) 256)).brightness_ = 0 ∧
    (RestoreBrightness (backlight_at 0) 256).brightness_ = 0 ∧
    (RestoreBrightness (backlight_at 0) 256).timer_running = false ∧
    (RestoreBrightness (backlight_at 50) 300).target_brightness_ = 44 := by
  decide

/-! ## Encoding a packet and decoding it again -/

theorem ntoh_htons (x : Nat) : ntoh (htons x) = x % 2 ^ 16 := by
  simp only [ntoh, htons, List.foldl, byteOf, Nat.reducePow]
  omega

theorem ntoh_htonl (x : Nat) : ntoh (htonl x) = x % 2 ^ 32 := by
  simp only [ntoh, htonl, List.foldl, byteOf, Nat.reducePow]
  omega

/-- The segment after a prefix of known length. -/
theorem segment_after (pre seg suf : List Byte) (k n : Nat) (hk : k = pre.length)
    (hn : n = seg.length) : ((pre ++ (seg ++ suf)).drop k).take n = seg := by
  rw [List.drop_left' hk.symm, List.take_left' hn.symm]

/-- What the inbound handler reads from a version-2 frame as `SendAudio` lays it out. -/
theorem decode_of_serialized_v2 (L : HeaderLayout) (s : WebsocketProtocol) (ver : Nat)
    (ts : Nat) (payload : List Byte) (hv : s.version_ = 2) (hts : ts < 2 ^ 32)
    (hlen : payload.length < 2 ^ 32) :
    decode_frame L s (htons ver ++ (zeros 2 ++ (zeros L.v2_reserved ++
      (htonl ts ++ (htonl payload.length ++ payload))))) =
      FrameResult.packet
        { sample_rate := s.server_sample_rate_, frame_duration := s.server_frame_duration_,
          timestamp := ts, payload := payload } := by
  generalize hF : htons ver ++ (zeros 2 ++ (zeros L.v2_reserved ++
      (htonl ts ++ (htonl payload.length ++ payload)))) = F
  have hFlen : F.length = L.sizeof2 + payload.length := by
    rw [← hF]
    simp only [List.length_append, length_htons, length_htonl, length_zeros,
      HeaderLayout.sizeof2]
    omega
  have hts' : header_timestamp L F = ts := by
    unfold header_timestamp
    have h := segment_after (htons ver ++ (zeros 2 ++ zeros L.v2_reserved)) (htonl ts)
      (htonl payload.length ++ payload) L.off2_timestamp 4
      (by simp only [List.length_append, length_htons, length_zeros,
        HeaderLayout.off2_timestamp]; omega) rfl
    simp only [List.append_assoc] at h
    rw [← hF, h, ntoh_htonl]
    exact Nat.mod_eq_of_lt hts
  have hps : declared_payload_size L 2 F = payload.length := by
    simp only [declared_payload_size, if_true]
    have h := segment_after (htons ver ++ (zeros 2 ++ (zeros L.v2_reserved ++ htonl ts)))
      (htonl payload.length) payload L.off2_payload_size 4
      (by simp only [List.length_append, length_htons, length_zeros, length_htonl,
        HeaderLayout.off2_payload_size]; omega) rfl
    simp only [List.append_assoc] at h
    rw [← hF, h, ntoh_htonl]
    exact Nat.mod_eq_of_lt hlen
  have hpay : F.drop L.sizeof2 = payload := by
    have h := @List.drop_left' _ (htons ver ++ (zeros 2 ++ (zeros L.v2_reserved ++
      (htonl ts ++ htonl payload.length)))) payload L.sizeof2
      (by simp only [List.length_append, length_htons, length_zeros, length_htonl,
        HeaderLayout.sizeof2]; omega)
    simp only [List.append_assoc] at h
    rw [← hF, h]
  rw [decode_frame_v2 L s F hv, if_neg (by omega), if_neg (by omega), hts', hps, hpay,
    List.take_length]

/-- What the inbound handler reads from a version-3 frame as `SendAudio` lays it out. -/
theorem decode_of_serialized_v3 (L : HeaderLayout) (s : WebsocketProtocol)
    (payload : List Byte) (hv : s.version_ = 3) :
    declared_payload_size L 3 (zeros L.v3_type ++ (zeros L.v3_reserved ++
      (htons payload.length ++ payload))) = payload.length % 2 ^ 16 ∧
    (zeros L.v3_type ++ (zeros L.v3_reserved ++
      (htons payload.length ++ payload))).drop L.sizeof3 = payload ∧
    (payload.length < 2 ^ 16 →
      decode_frame L s (zeros L.v3_type ++ (zeros L.v3_reserved ++
        (htons payload.length ++ payload))) =
        FrameResult.packet
          { sample_rate := s.server_sample_rate_, frame_duration := s.server_frame_duration_,
            timestamp := 0, payload := payload }) := by
  generalize hF : zeros L.v3_type ++ (zeros L.v3_reserved ++
      (htons payload.length ++ payload)) = F
  have h32 : ¬ ((3 : Int) = 2) := by decide
  have hFlen : F.length = L.sizeof3 + payload.length := by
    rw [← hF]
    simp only [List.length_append, length_htons, length_zeros, HeaderLayout.sizeof3]
    omega
  have hps : declared_payload_size L 3 F = payload.length % 2 ^ 16 := by
    simp only [declared_payload_size, h32, if_true, if_false]
    have h := segment_after (zeros L.v3_type ++ zeros L.v3_reserved)
      (htons payload.length) payload L.off3_payload_size 2
      (by simp only [List.length_append, length_zeros, HeaderLayout.off3_payload_size]) rfl
    simp only [List.append_assoc] at h
    rw [← hF, h, ntoh_htons]
  have hpay : F.drop L.sizeof3 = payload := by
    have h := @List.drop_left' _ (zeros L.v3_type ++ (zeros L.v3_reserved ++
      htons payload.length)) payload L.sizeof3
      (by simp only [List.length_append, length_htons, length_zeros, HeaderLayout.sizeof3]
          omega)
    simp only [List.append_assoc] at h
    rw [← hF, h]
  refine ⟨hps, hpay, ?_⟩
  intro hlen
  have hps' : declared_payload_size L 3 F = payload.length := by
    rw [hps]
    exact Nat.mod_eq_of_lt hlen
  rw [decode_frame_v3 L s F hv, if_neg (by omega), if_neg (by omega), hps', hpay,
    List.take_length]

/-- C22: with the transport connected, for every packet whose timestamp fits
its `uint32_t` member and whose payload is shorter than 2^32 bytes under
version 2, shorter than 2^16 bytes under version 3, and of any length under
the other versions, the bytes `SendAudio` produces are decoded by the inbound
handler under the same version to a packet with the same payload, with the
original timestamp under version 2 and timestamp 0 otherwise; with an audio
observer registered the handler hands over that packet. -/
theorem encode_then_decode (L : HeaderLayout) (cJSON_Parse : List Byte → Option cJSON)
    (s : WebsocketProtocol) (p : AudioStreamPacket) (now : Int)
    (hws : s.websocket_ = some { is_connected := true })
    (hts : p.timestamp < 2 ^ 32)
    (h2 : s.version_ = 2 → p.payload.length < 2 ^ 32)
    (h3 : s.version_ = 3 → p.payload.length < 2 ^ 16) :
    ∃ frame : List Byte,
      SendAudio_frame L s p = some frame ∧
      decode_frame L s frame =
        FrameResult.packet
          { sample_rate := s.server_sample_rate_, frame_duration := s.server_frame_duration_,
            timestamp := if s.version_ = 2 then p.timestamp else 0, payload := p.payload } ∧
      (s.on_incoming_audio_ = true →
        OnData L cJSON_Parse s frame true now =
          { s with
            trace := s.trace ++ [Event.incoming_audio
              { sample_rate := s.server_sample_rate_
                frame_duration := s.server_frame_duration_
                timestamp := if s.version_ = 2 then p.timestamp else 0
                payload := p.payload }]
            last_incoming_time_ := now }) := by
  have hon : ∀ (frame : List Byte) (q : AudioStreamPacket),
      decode_frame L s frame = FrameResult.packet q → s.on_incoming_audio_ = true →
      OnData L cJSON_Parse s frame true now =
        { s with trace := s.trace ++ [Event.incoming_audio q], last_incoming_time_ := now } := by
    intro frame q hq ho
    simp [OnData, ho, hq]
  by_cases hv2 : s.version_ = 2
  · have henc : SendAudio_frame L s p = some (htons 2 ++ (zeros 2 ++ (zeros L.v2_reserved ++
        (htonl p.timestamp ++ (htonl p.payload.length ++ p.payload))))) := by
      unfold SendAudio_frame
      rw [hws]
      simp only [Bool.not_true, Bool.false_eq_true, if_false]
      rw [if_pos hv2, serialize2_eq, hv2]
      rfl
    have hdec := decode_of_serialized_v2 L s 2 p.timestamp p.payload hv2 hts (h2 hv2)
    rw [if_pos hv2]
    exact ⟨_, henc, hdec, hon _ _ hdec⟩
  · by_cases hv3 : s.version_ = 3
    · have henc : SendAudio_frame L s p = some (zeros L.v3_type ++ (zeros L.v3_reserved ++
          (htons p.payload.length ++ p.payload))) := by
        unfold SendAudio_frame
        rw [hws]
        simp only [Bool.not_true, Bool.false_eq_true, if_false]
        rw [if_neg hv2, if_pos hv3, serialize3_eq]
      have hdec := (decode_of_serialized_v3 L s p.payload hv3).2.2 (h3 hv3)
      rw [if_neg hv2]
      exact ⟨_, henc, hdec, hon _ _ hdec⟩
    · have henc : SendAudio_frame L s p = some p.payload := by
        unfold SendAudio_frame
        rw [hws]
        simp only [Bool.not_true, Bool.false_eq_true, if_false]
        rw [if_neg hv2, if_neg hv3]
      have hdec := decode_frame_v1 L s p.payload hv2 hv3
      rw [if_neg hv2]
      exact ⟨_, henc, hdec, hon _ _ hdec⟩

/-- Witness of C22: the sample packet under version 2 and a 12-byte header. -/
theorem encode_then_decode_witness :
    sample_packet.timestamp < 2 ^ 32 ∧ sample_packet.payload.length < 2 ^ 32 ∧
    ∃ frame : List Byte,
      SendAudio_frame layout_12_6 (connected_engine 2) sample_packet = some frame ∧
      decode_frame layout_12_6 (connected_engine 2) frame =
        FrameResult.packet
          { sample_rate := 24000, frame_duration := 60, timestamp := 258,
            payload := [7, 8, 9] } :=
  have h := encode_then_decode layout_12_6 parse_nothing (connected_engine 2) sample_packet 5
    rfl (by decide) (fun _ => by decide) (fun _ => by decide)
  ⟨by decide, by decide, h.elim (fun frame hf => ⟨frame, hf.1, hf.2.1⟩)⟩

/-- The version-3 header `SendAudio` writes declares the payload length
reduced modulo 2^16, and all payload bytes follow the header. -/
theorem sent_payload_size_v3 (L : HeaderLayout) (s : WebsocketProtocol)
    (p : AudioStreamPacket) (hws : s.websocket_ = some { is_connected := true })
    (hv : s.version_ = 3) :
    ∃ frame : List Byte,
      SendAudio_frame L s p = some frame ∧
      declared_payload_size L 3 frame = p.payload.length % 2 ^ 16 ∧
      frame.drop L.sizeof3 = p.payload := by
  have h32 : ¬ ((3 : Int) = 2) := by decide
  have hn2 : s.version_ ≠ 2 := by rw [hv]; exact h32
  have henc : SendAudio_frame L s p = some (zeros L.v3_type ++ (zeros L.v3_reserved ++
      (htons p.payload.length ++ p.payload))) := by
    unfold SendAudio_frame
    rw [hws]
    simp only [Bool.not_true, Bool.false_eq_true, if_false]
    rw [if_neg hn2, if_pos hv, serialize3_eq]
  have h := decode_of_serialized_v3 L s p.payload hv
  exact ⟨_, henc, h.1, h.2.1⟩

/-- C23, as stated, fails for a payload of 65536 bytes: the version-3 header
that `SendAudio` writes declares 0 payload bytes, and 65536 bytes follow it. -/
theorem payload_size_truncated_counterexample :
    packet_of_65536_bytes.payload.length = 65536 ∧
    ∃ frame : List Byte,
      SendAudio_frame layout_12_6 (connected_engine 3) packet_of_65536_bytes = some frame ∧
      declared_payload_size layout_12_6 3 frame = 0 ∧
      (frame.drop (header_size layout_12_6 3)).length = 65536 := by
  have hlen : packet_of_65536_bytes.payload.length = 65536 := by
    show (List.replicate 65536 (0 : Byte)).length = 65536
    exact List.length_replicate 65536 0
  obtain ⟨frame, hf, hsize, hpay⟩ :=
    sent_payload_size_v3 layout_12_6 (connected_engine 3) packet_of_65536_bytes rfl rfl
  refine ⟨hlen, frame, hf, ?_, ?_⟩
  · rw [hsize, hlen]
    decide
  · have hh : header_size layout_12_6 3 = layout_12_6.sizeof3 := by decide
    rw [hh, hpay, hlen]

/-- C23, amended: for every packet sent under wire version 3 whose payload is
shorter than 2^16 bytes, the `payload_size` written in the header equals the
payload length, and exactly the payload bytes follow the header. -/
theorem sent_payload_size_matches (L : HeaderLayout) (s : WebsocketProtocol)
    (p : AudioStreamPacket) (hws : s.websocket_ = some { is_connected := true })
    (hv : s.version_ = 3) (hlen : p.payload.length < 2 ^ 16) :
    ∃ frame : List Byte,
      SendAudio_frame L s p = some frame ∧
      declared_payload_size L 3 frame = p.payload.length ∧
      frame.drop (header_size L 3) = p.payload ∧
      frame.length = header_size L 3 + declared_payload_size L 3 frame := by
  obtain ⟨frame, hf, hsize, hpay⟩ := sent_payload_size_v3 L s p hws hv
  have hh : header_size L 3 = L.sizeof3 := by simp [header_size]
  have hsize' : declared_payload_size L 3 frame = p.payload.length := by
    rw [hsize]
    exact Nat.mod_eq_of_lt hlen
  refine ⟨frame, hf, hsize', by rw [hh, hpay], ?_⟩
  have hfl : frame.length = (reference_encoding L s.version_ p).length := by
    have href := SendAudio_frame_connected L s p hws
    rw [hf] at href
    injection href with href
    rw [href]
  rw [hfl, length_reference_encoding, hv, hsize']

/-- Witness of C23: the sample packet under version 3 declares 3 payload bytes. -/
theorem sent_payload_size_matches_witness :
    sample_packet.payload.length < 2 ^ 16 ∧
    ∃ frame : List Byte,
      SendAudio_frame layout_12_6 (connected_engine 3) sample_packet = some frame ∧
      declared_payload_size layout_12_6 3 frame = 3 :=
  have h := sent_payload_size_matches layout_12_6 (connected_engine 3) sample_packet rfl rfl
    (by decide)
  ⟨by decide, h.elim (fun frame hf => ⟨frame, hf.1, hf.2.1⟩)⟩

end Xiaozhi
